import Mathlib

/-!
Verification of the ptra patient-trajectory analysis tool (imec-int/ptra).

This file gives a shallow embedding, in Lean 4, of the parts of the Go
source that the checked claims are about:

* the ICD-10 code map built from the XML hierarchy
  (`initializeIcd10AnalysisMaps`, `lib/parseData.go`),
* the CCSR-based code map (`initializeIcd10AnalysisMapsCCSR`),
* the patient-diagnosis fill-in functions (`fillInPatientDiagnoses`,
  `fillInNonICDPatientDiagnoses`),
* the diagnosis-CSV parse loop (`parseTrinetXPatientDiagnoses`),
* the cohort age-bucket assignment (`parseTriNetXPatientData`),
* the treatment-CSV row parser (`parseTriNetXTreatmentFile`),
* the patient and trajectory filters (`GetPatientFilter`,
  `GetTrajectoryFilter`, `cancerStageAggregator`, `EOIFilter`,
  `ageLessAggregator`, ...),
* the CLI flag handling (`parseFlags`, `cmd/ptra/main.go`), and
* the panic-recovering experiment driver (`Run`, `app/experiment.go`).

Go maps are embedded as association lists (an entry written by
`m[k] = v` shadows older entries for `k`, matching Go map overwrite for
lookups); Go slices are lists; Go pointers that are mutated in place are
expressed by explicit state passing; functions that can panic return
`Option`.
-/

/-- Association-list lookup, the embedding of a Go map read `v, ok := m[k]`.
New writes are consed to the front, so the first hit is the most recent
write, matching Go map semantics. -/
def lookupA {α β : Type} [DecidableEq α] : List (α × β) → α → Option β
  | [], _ => none
  | (k, v) :: t, a => if k = a then some v else lookupA t a

theorem lookupA_cons_self {α β : Type} [DecidableEq α] (k : α) (v : β)
    (l : List (α × β)) : lookupA ((k, v) :: l) k = some v := by
  simp [lookupA]

theorem lookupA_cons_ne {α β : Type} [DecidableEq α] {k a : α} (v : β)
    (l : List (α × β)) (h : k ≠ a) : lookupA ((k, v) :: l) a = lookupA l a := by
  simp [lookupA, h]

theorem lookupA_mem {α β : Type} [DecidableEq α] {l : List (α × β)} {a : α}
    {b : β} (h : lookupA l a = some b) : (a, b) ∈ l := by
  induction l with
  | nil => simp [lookupA] at h
  | cons hd tl ih =>
    obtain ⟨k, v⟩ := hd
    rw [lookupA] at h
    by_cases hk : k = a
    · rw [if_pos hk] at h
      cases h
      rw [hk]
      exact List.mem_cons_self _ _
    · rw [if_neg hk] at h
      exact List.mem_cons_of_mem _ (ih h)

/-- Go string slicing `s[0:n]` (the strings sliced by the source are
ASCII, so byte indices are character indices). -/
def strTake (s : String) (n : Nat) : String := String.mk (s.data.take n)

/-- Go string slicing `s[n:]` for ASCII strings. -/
def strDrop (s : String) (n : Nat) : String := String.mk (s.data.drop n)

/-- `strconv.Atoi` restricted to the unsigned digit strings that occur in
the parsed date fields: `some` of the decimal value on an all-digit
non-empty string, `none` (the Go error) otherwise. -/
def goAtoiNat (s : String) : Option Nat :=
  if s.data ≠ [] ∧ s.data.all Char.isDigit then
    some (s.data.foldl (fun acc c => acc * 10 + (c.toNat - 48)) 0)
  else none

/-- `Date` of a diagnosis, the triple `(Year, Month, Day)`
(struct `DiagnosisDate` of the ptra trajectory package; modelled from the
spec: "Date — triple (year, month, day) with a total order"). -/
structure DiagnosisDate where
  Year : Nat
  Month : Nat
  Day : Nat
deriving DecidableEq, Repr

/-- Modelled from the spec: the total order on dates (`DiagnosisDateSmallerThan`
of the missing trajectory package), lexicographic on (year, month, day). -/
def DiagnosisDateSmallerThan (d1 d2 : DiagnosisDate) : Bool :=
  if d1.Year < d2.Year then true
  else if d1.Year = d2.Year then
    if d1.Month < d2.Month then true
    else if d1.Month = d2.Month then d1.Day < d2.Day
    else false
  else false

/-- A single diagnosis event `(PID, DID, Date)` (struct `Diagnosis`). -/
structure Diagnosis where
  PID : Nat
  DID : Nat
  Date : DiagnosisDate
deriving DecidableEq, Repr

/-- Sex constants of the trajectory package (modelled from the spec:
"sex ∈ {Male, Female}"; the concrete integer values are not observable
in the claims). -/
def Male : Nat := 0

/-- Female sex constant; see `Male`. -/
def Female : Nat := 1

/-- A patient record (struct `Patient` of the trajectory package; fields as
used by `lib/parseData.go`: PID, PIDString, YOB, CohortAge, Sex, Diagnoses,
DeathDate, EOIDate, Region). -/
structure Patient where
  PID : Nat
  PIDString : String
  YOB : Nat
  CohortAge : Nat
  Sex : Nat
  Diagnoses : List Diagnosis
  DeathDate : Option DiagnosisDate := none
  EOIDate : Option DiagnosisDate := none
  Region : Nat := 0
deriving DecidableEq, Repr

/-- Modelled from the spec: `Patient.AddDiagnosis` of the missing trajectory
package appends a diagnosis to the patient's diagnosis list (the canonical
time-sorted, compacted form is established later by `SortDiagnoses` /
`CompactDiagnoses`). -/
def Patient.AddDiagnosis (p : Patient) (d : Diagnosis) : Patient :=
  { p with Diagnoses := p.Diagnoses ++ [d] }

/-- Dates of bladder-cancer treatments (struct `TreatmentInfo`,
`lib/parseData.go`). -/
structure TreatmentInfo where
  RCDate : Option DiagnosisDate
  MVACDate : Option DiagnosisDate
  IVTDate : Option DiagnosisDate
deriving DecidableEq, Repr

/-- Bladder-cancer tumor information (struct `TumorInfo`,
`lib/parseData.go`). -/
structure TumorInfo where
  TStage : String
  NStage : String
  MStage : String
  Stage : String
  Date : DiagnosisDate
deriving DecidableEq, Repr

/-! ## ICD-10 XML code map (`initializeIcd10AnalysisMaps`) -/

/-- Medical name, hierarchy categories and level of an ICD-10 code
(struct `Icd10Entry`, `lib/parseData.go`). The Go `[6]string` array of
category names is a list read with a default, as the source only indexes
it at levels `0..5`. -/
structure Icd10Entry where
  Name : String
  Categories : List String
  Level : Nat
deriving DecidableEq, Repr

/-- The level-0 chapter descriptions excluded from analysis
(`getIcd10DescToExcludeFromAnalysis`, `lib/parseData.go` lines 257-266). -/
def icd10DescToExcludeFromAnalysis : List String :=
  ["Pregnancy, childbirth and the puerperal (O00-O9A)",
   "Certain conditions originating in the perinatal period (P00-P96)",
   "Symptoms, signs and abnormal clinical and laboratory findings, not elsewhere classified (R00-R99)",
   "Injury, poisoning and certain other consequences of external causes (S00-T88)",
   "External causes of morbidity (V00-Y99)",
   "Factors influencing health status and contact with health services (Z00-Z99)"]

/-- The first letters of ICD-10 codes excluded from the CCSR-based analysis
(`getIcd10CodesToExcludeFromAnalysis`, `lib/parseData.go` lines 269-281). -/
def icd10CodesToExcludeFromAnalysis : List String :=
  ["O", "P", "R", "S", "T", "V", "X", "Y", "Z"]

/-- The mockup non-ICD codes added to every analysis map
(`getNonICD10CodesToAddToAnalysis`, `lib/parseData.go` lines 287-293).
The Go source iterates the literal map; the iteration order of the three
entries is fixed here, which only fixes which DID each extra code gets. -/
def nonICD10CodesToAddToAnalysis : List (String × String) :=
  [("C98", "Radical cystectomy (bladder cancer)"),
   ("C99", "MVAC Chemotherapy (bladder cancer)"),
   ("C100", "Intravesical therapy (bladder cancer)")]

/-- Whether an entry's top-level chapter is excluded from analysis: the Go
test `_, ok := icd10ToExclude[icd10Entry.Categories[0]]`. -/
def icd10EntryExcluded (e : Icd10Entry) : Bool :=
  icd10DescToExcludeFromAnalysis.contains (e.Categories.getD 0 "")

/-- The name an ICD-10 entry resolves to at collapse level `level`: its own
name when `level >= entry.Level`, else the ancestor label
`entry.Categories[level]` (the `var name string` branch of
`initializeIcd10AnalysisMaps`, `lib/parseData.go` lines 310-315). -/
def resolveName (level : Nat) (e : Icd10Entry) : String :=
  if level ≥ e.Level then e.Name else e.Categories.getD level ""

/-- State threaded through `initializeIcd10AnalysisMaps`: the four local
variables `analysisIdMap`, `analysisIcd10Map`, `nameToAnalysisIdMap`,
`ctr` of `lib/parseData.go` lines 300-303. -/
structure XmlMapsState where
  analysisIdMap : List (String × Nat)
  analysisIcd10Map : List (Nat × Icd10Entry)
  nameToAnalysisIdMap : List (String × Nat)
  ctr : Nat
deriving Repr

/-- One iteration of the main loop of `initializeIcd10AnalysisMaps`
(`lib/parseData.go` lines 305-325) on a single `(icd10Code, icd10Entry)`
pair of the input name map. -/
def xmlMapsStep (level : Nat) (st : XmlMapsState) (ce : String × Icd10Entry) :
    XmlMapsState :=
  if icd10EntryExcluded ce.2 then st
  else
    match lookupA st.nameToAnalysisIdMap (resolveName level ce.2) with
    | some newID =>
      { st with analysisIdMap := (ce.1, newID) :: st.analysisIdMap }
    | none =>
      { analysisIdMap := (ce.1, st.ctr) :: st.analysisIdMap,
        analysisIcd10Map := (st.ctr, ce.2) :: st.analysisIcd10Map,
        nameToAnalysisIdMap := (resolveName level ce.2, st.ctr) :: st.nameToAnalysisIdMap,
        ctr := st.ctr + 1 }

/-- One iteration of the extras loop of `initializeIcd10AnalysisMaps`
(`lib/parseData.go` lines 327-332): the mockup code gets the next fresh id
(`Icd10Entry{Name: name}` leaves the Go categories array at its zero value
and the level at 0). -/
def xmlExtraStep (st : XmlMapsState) (cn : String × String) : XmlMapsState :=
  { analysisIdMap := (cn.1, st.ctr) :: st.analysisIdMap,
    analysisIcd10Map := (st.ctr, { Name := cn.2, Categories := [], Level := 0 }) :: st.analysisIcd10Map,
    nameToAnalysisIdMap := (cn.2, st.ctr) :: st.nameToAnalysisIdMap,
    ctr := st.ctr + 1 }

/-- The extras loop of `initializeIcd10AnalysisMaps`
(`lib/parseData.go` lines 326-332). -/
def xmlMapsAddExtras (st : XmlMapsState) : XmlMapsState :=
  nonICD10CodesToAddToAnalysis.foldl xmlExtraStep st

/-- `initializeIcd10AnalysisMaps` (`lib/parseData.go` lines 299-335): folds
the loop body over the input name map (given as an association list; a Go
map iteration visits each key exactly once, in some order, so the theorems
quantify over every list with no duplicate keys) and then adds the three
extra codes.  The returned `ctr` is the `NofDiagnosisCodes` of the
resulting `icd10AnalysisMapsFromXML`. -/
def icd10AnalysisMapsOfNameMap (icd10Map : List (String × Icd10Entry))
    (level : Nat) : XmlMapsState :=
  xmlMapsAddExtras (icd10Map.foldl (xmlMapsStep level) ⟨[], [], [], 0⟩)

/-- `icd10AnalysisMapsFromXML.getDID` (`lib/parseData.go` lines 471-477):
the Go function returns `-1` for a missing code; missing is `none` here. -/
def xmlGetDID (st : XmlMapsState) (icd10Name : String) : Option Nat :=
  lookupA st.analysisIdMap icd10Name

/-- `icd10AnalysisMapsFromXML.fillInPatientDiagnoses`
(`lib/parseData.go` lines 535-543).  The Go function mutates the patient
through a pointer and returns an `int` flag; here it returns the updated
patient together with the flag. -/
def xmlFillInPatientDiagnoses (st : XmlMapsState) (patient : Patient)
    (DIDString : String) (date : DiagnosisDate) : Patient × Nat :=
  match xmlGetDID st DIDString with
  | none => (patient, 1)
  | some DID =>
    (patient.AddDiagnosis { PID := patient.PID, DID := DID, Date := date }, 0)

/-! ### Invariant lemmas for the XML analysis-map fold -/

theorem xmlMapsStep_nameToId_mono (level : Nat) (st : XmlMapsState)
    (ce : String × Icd10Entry) {n : String} {i : Nat}
    (h : lookupA st.nameToAnalysisIdMap n = some i) :
    lookupA (xmlMapsStep level st ce).nameToAnalysisIdMap n = some i := by
  unfold xmlMapsStep
  split
  · exact h
  · split
    · exact h
    · rename_i hnone
      have hne : resolveName level ce.2 ≠ n := by
        intro he
        rw [he] at hnone
        rw [hnone] at h
        cases h
      rw [lookupA_cons_ne _ _ hne]
      exact h

theorem xmlMapsFold_nameToId_mono (level : Nat) (l : List (String × Icd10Entry))
    (st : XmlMapsState) {n : String} {i : Nat}
    (h : lookupA st.nameToAnalysisIdMap n = some i) :
    lookupA (l.foldl (xmlMapsStep level) st).nameToAnalysisIdMap n = some i := by
  induction l generalizing st with
  | nil => exact h
  | cons hd tl ih =>
    rw [List.foldl_cons]
    exact ih _ (xmlMapsStep_nameToId_mono level st hd h)

theorem xmlMapsStep_idMap_other (level : Nat) (st : XmlMapsState)
    (ce : String × Icd10Entry) {c : String} (hne : ce.1 ≠ c) :
    lookupA (xmlMapsStep level st ce).analysisIdMap c =
      lookupA st.analysisIdMap c := by
  unfold xmlMapsStep
  split
  · rfl
  · split
    · exact lookupA_cons_ne _ _ hne
    · exact lookupA_cons_ne _ _ hne

theorem xmlMapsFold_idMap_other (level : Nat) (l : List (String × Icd10Entry))
    (st : XmlMapsState) {c : String} (hne : c ∉ l.map Prod.fst) :
    lookupA (l.foldl (xmlMapsStep level) st).analysisIdMap c =
      lookupA st.analysisIdMap c := by
  induction l generalizing st with
  | nil => rfl
  | cons hd tl ih =>
    rw [List.map_cons] at hne
    rw [List.foldl_cons, ih _ (fun h => hne (List.mem_cons_of_mem _ h))]
    exact xmlMapsStep_idMap_other level st hd
      (fun h => hne (h ▸ List.mem_cons_self _ _))

theorem xmlMapsStep_assigns (level : Nat) (st : XmlMapsState)
    (c : String) (e : Icd10Entry) (hex : icd10EntryExcluded e = false) :
    ∃ i, lookupA (xmlMapsStep level st (c, e)).analysisIdMap c = some i ∧
      lookupA (xmlMapsStep level st (c, e)).nameToAnalysisIdMap
        (resolveName level e) = some i := by
  unfold xmlMapsStep
  rw [hex]
  simp only [Bool.false_eq_true, if_false]
  match hlk : lookupA st.nameToAnalysisIdMap (resolveName level e) with
  | some j =>
    exact ⟨j, lookupA_cons_self _ _ _, hlk⟩
  | none =>
    exact ⟨st.ctr, lookupA_cons_self _ _ _, lookupA_cons_self _ _ _⟩

/-- After folding the whole input, a non-excluded code is mapped to the id
that `nameToAnalysisIdMap` holds for its resolved name. -/
theorem xmlMapsFold_code_id (level : Nat) (l : List (String × Icd10Entry))
    (c : String) (e : Icd10Entry) (hmem : (c, e) ∈ l)
    (hnodup : (l.map Prod.fst).Nodup) (hex : icd10EntryExcluded e = false) :
    ∃ i, lookupA (l.foldl (xmlMapsStep level) ⟨[], [], [], 0⟩).analysisIdMap c = some i ∧
      lookupA (l.foldl (xmlMapsStep level) ⟨[], [], [], 0⟩).nameToAnalysisIdMap
        (resolveName level e) = some i := by
  obtain ⟨l₁, l₂, rfl⟩ := List.append_of_mem hmem
  have hc2 : c ∉ l₂.map Prod.fst := by
    have := hnodup
    rw [List.map_append, List.map_cons] at this
    have hd := this.of_append_right
    exact (List.nodup_cons.mp hd).1
  rw [List.foldl_append, List.foldl_cons]
  set st₁ := l₁.foldl (xmlMapsStep level) ⟨[], [], [], 0⟩ with hst₁
  obtain ⟨i, hid, hname⟩ := xmlMapsStep_assigns level st₁ c e hex
  refine ⟨i, ?_, ?_⟩
  · rw [xmlMapsFold_idMap_other level l₂ _ hc2]
    exact hid
  · exact xmlMapsFold_nameToId_mono level l₂ _ hname

/-- The extras loop leaves the id-map lookups of codes other than
`C98`, `C99`, `C100` unchanged. -/
theorem xmlMapsAddExtras_idMap_other (st : XmlMapsState) {c : String}
    (hc : c ∉ nonICD10CodesToAddToAnalysis.map Prod.fst) :
    lookupA (xmlMapsAddExtras st).analysisIdMap c =
      lookupA st.analysisIdMap c := by
  simp only [nonICD10CodesToAddToAnalysis, List.map_cons, List.map_nil,
    List.mem_cons, List.not_mem_nil, or_false, not_or] at hc
  obtain ⟨h1, h2, h3⟩ := hc
  unfold xmlMapsAddExtras nonICD10CodesToAddToAnalysis
  rw [List.foldl_cons, List.foldl_cons, List.foldl_cons, List.foldl_nil]
  simp only [xmlExtraStep]
  rw [lookupA_cons_ne _ _ (fun h => h3 h.symm),
    lookupA_cons_ne _ _ (fun h => h2 h.symm),
    lookupA_cons_ne _ _ (fun h => h1 h.symm)]

/-- With no duplicate keys, a key determines its value in an association
list. -/
theorem nodup_keys_mem_unique {α β : Type} {l : List (α × β)}
    (h : (l.map Prod.fst).Nodup) {a : α} {b1 b2 : β}
    (h1 : (a, b1) ∈ l) (h2 : (a, b2) ∈ l) : b1 = b2 := by
  induction l with
  | nil => cases h1
  | cons hd tl ih =>
    rw [List.map_cons, List.nodup_cons] at h
    rcases List.mem_cons.mp h1 with he1 | ht1
    · rcases List.mem_cons.mp h2 with he2 | ht2
      · rw [← he1] at he2
        exact congrArg Prod.snd he2.symm
      · exfalso
        apply h.1
        have : hd.1 = a := by rw [← he1]
        rw [this]
        exact List.mem_map_of_mem Prod.fst ht2
    · rcases List.mem_cons.mp h2 with he2 | ht2
      · exfalso
        apply h.1
        have : hd.1 = a := by rw [← he2]
        rw [this]
        exact List.mem_map_of_mem Prod.fst ht1
      · exact ih h.2 ht1 ht2

/-- C1 theorem.  Two non-excluded codes of the input hierarchy whose
entries resolve to the same name at collapse level `level` are mapped to
the same dense analysis DID; and an entry whose own level is at most
`level` resolves to its own name (so its own name, not an ancestor label,
determines its DID). -/
theorem icd10_collapse_shares_DID
    (icd10Map : List (String × Icd10Entry)) (level : Nat)
    (c1 c2 : String) (e1 e2 : Icd10Entry)
    (hnodup : (icd10Map.map Prod.fst).Nodup)
    (h1 : (c1, e1) ∈ icd10Map) (h2 : (c2, e2) ∈ icd10Map)
    (hex1 : icd10EntryExcluded e1 = false) (hex2 : icd10EntryExcluded e2 = false)
    (hx1 : c1 ∉ nonICD10CodesToAddToAnalysis.map Prod.fst)
    (hx2 : c2 ∉ nonICD10CodesToAddToAnalysis.map Prod.fst)
    (hname : resolveName level e1 = resolveName level e2) :
    (∃ d, xmlGetDID (icd10AnalysisMapsOfNameMap icd10Map level) c1 = some d ∧
          xmlGetDID (icd10AnalysisMapsOfNameMap icd10Map level) c2 = some d) ∧
    (∀ e : Icd10Entry, e.Level ≤ level → resolveName level e = e.Name) := by
  constructor
  · obtain ⟨i1, hid1, hn1⟩ := xmlMapsFold_code_id level icd10Map c1 e1 h1 hnodup hex1
    obtain ⟨i2, hid2, hn2⟩ := xmlMapsFold_code_id level icd10Map c2 e2 h2 hnodup hex2
    have hii : i1 = i2 := by
      rw [hname] at hn1
      rw [hn1] at hn2
      cases hn2
      rfl
    subst hii
    refine ⟨i1, ?_, ?_⟩
    · unfold xmlGetDID icd10AnalysisMapsOfNameMap
      rw [xmlMapsAddExtras_idMap_other _ hx1]
      exact hid1
    · unfold xmlGetDID icd10AnalysisMapsOfNameMap
      rw [xmlMapsAddExtras_idMap_other _ hx2]
      exact hid2
  · intro e he
    unfold resolveName
    rw [if_pos he]

/-- Concrete hierarchy entry of code `A00.0` (level-3 child of the level-2
parent `A00` "Cholera"). -/
def choleraEntryA000 : Icd10Entry :=
  { Name := "Cholera due to Vibrio cholerae 01, biovar cholerae",
    Categories := ["Certain infectious and parasitic diseases (A00-B99)",
                   "Intestinal infectious diseases (A00-A09)",
                   "Cholera", "NONE", "NONE", "NONE"],
    Level := 3 }

/-- Concrete hierarchy entry of code `A00.1`; same level-2 parent as
`choleraEntryA000`. -/
def choleraEntryA001 : Icd10Entry :=
  { Name := "Cholera due to Vibrio cholerae 01, biovar eltor",
    Categories := ["Certain infectious and parasitic diseases (A00-B99)",
                   "Intestinal infectious diseases (A00-A09)",
                   "Cholera", "NONE", "NONE", "NONE"],
    Level := 3 }

/-- A two-code input name map for the collapse scenario S6. -/
def choleraNameMap : List (String × Icd10Entry) :=
  [("A00.0", choleraEntryA000), ("A00.1", choleraEntryA001)]

/-- C1 witness: at collapse level 2 the codes `A00.0` and `A00.1` receive
the same DID. -/
theorem icd10_collapse_shares_DID_witness :
    (∃ d, xmlGetDID (icd10AnalysisMapsOfNameMap choleraNameMap 2) "A00.0" = some d ∧
          xmlGetDID (icd10AnalysisMapsOfNameMap choleraNameMap 2) "A00.1" = some d) ∧
    (∀ e : Icd10Entry, e.Level ≤ 2 → resolveName 2 e = e.Name) :=
  icd10_collapse_shares_DID choleraNameMap 2 "A00.0" "A00.1"
    choleraEntryA000 choleraEntryA001
    (by decide) (by simp [choleraNameMap]) (by simp [choleraNameMap])
    (by decide) (by decide) (by decide) (by decide) (by decide)

/-- If every entry of the input carrying key `c` is excluded, the main loop
never assigns `c` a DID. -/
theorem xmlMapsFold_excluded_none (level : Nat)
    (l : List (String × Icd10Entry)) (c : String)
    (hall : ∀ e, (c, e) ∈ l → icd10EntryExcluded e = true)
    (st : XmlMapsState) (h0 : lookupA st.analysisIdMap c = none) :
    lookupA (l.foldl (xmlMapsStep level) st).analysisIdMap c = none := by
  induction l generalizing st with
  | nil => exact h0
  | cons hd tl ih =>
    rw [List.foldl_cons]
    refine ih (fun e he => hall e (List.mem_cons_of_mem _ he)) _ ?_
    by_cases hc : hd.1 = c
    · have hex : icd10EntryExcluded hd.2 = true := by
        apply hall
        have hpair : (c, hd.2) = hd := by
          obtain ⟨k, v⟩ := hd
          rw [show k = c from hc]
        rw [hpair]
        exact List.mem_cons_self _ _
      have hstep : xmlMapsStep level st hd = st := by
        unfold xmlMapsStep
        rw [hex]
        simp
      rw [hstep]
      exact h0
    · rw [xmlMapsStep_idMap_other level st hd hc]
      exact h0

/-- C2 theorem.  A code whose hierarchy entry lies in an excluded top-level
chapter is assigned no DID by the XML code map, and
`fillInPatientDiagnoses` on it leaves the patient unchanged and returns
the excluded indicator 1. -/
theorem excluded_chapter_no_DID
    (icd10Map : List (String × Icd10Entry)) (level : Nat)
    (c : String) (e : Icd10Entry)
    (hnodup : (icd10Map.map Prod.fst).Nodup)
    (hmem : (c, e) ∈ icd10Map)
    (hex : icd10EntryExcluded e = true)
    (hc : c ∉ nonICD10CodesToAddToAnalysis.map Prod.fst) :
    xmlGetDID (icd10AnalysisMapsOfNameMap icd10Map level) c = none ∧
    ∀ (p : Patient) (date : DiagnosisDate),
      xmlFillInPatientDiagnoses (icd10AnalysisMapsOfNameMap icd10Map level)
        p c date = (p, 1) := by
  have hall : ∀ e2, (c, e2) ∈ icd10Map → icd10EntryExcluded e2 = true := by
    intro e2 h2
    rw [nodup_keys_mem_unique hnodup h2 hmem]
    exact hex
  have hnone : xmlGetDID (icd10AnalysisMapsOfNameMap icd10Map level) c = none := by
    unfold xmlGetDID icd10AnalysisMapsOfNameMap
    rw [xmlMapsAddExtras_idMap_other _ hc]
    exact xmlMapsFold_excluded_none level icd10Map c hall _ rfl
  refine ⟨hnone, fun p date => ?_⟩
  unfold xmlFillInPatientDiagnoses
  rw [hnone]

/-- Concrete hierarchy entry of code `Z85.1`, whose chapter
(Z00-Z99, health status) is in the excluded set. -/
def historyEntryZ851 : Icd10Entry :=
  { Name := "Personal history of malignant neoplasm of trachea, bronchus and lung",
    Categories := ["Factors influencing health status and contact with health services (Z00-Z99)",
                   "Persons with potential health hazards related to family and personal history (Z77-Z99)",
                   "Personal history of malignant neoplasm", "NONE", "NONE", "NONE"],
    Level := 3 }

/-- One-code input name map for the exclusion scenario. -/
def excludedNameMap : List (String × Icd10Entry) := [("Z85.1", historyEntryZ851)]

/-- A concrete patient with an empty diagnosis list. -/
def demoPatient : Patient :=
  { PID := 1, PIDString := "p1", YOB := 1950, CohortAge := 0, Sex := Male,
    Diagnoses := [], DeathDate := none, EOIDate := none, Region := 0 }

/-- A concrete date. -/
def demoDate : DiagnosisDate := { Year := 2020, Month := 6, Day := 15 }

/-- C2 witness: the `Z85.1` code of the excluded Z-chapter gets no DID and
`fillInPatientDiagnoses` returns the patient unchanged with indicator 1. -/
theorem excluded_chapter_no_DID_witness :
    xmlGetDID (icd10AnalysisMapsOfNameMap excludedNameMap 3) "Z85.1" = none ∧
    xmlFillInPatientDiagnoses (icd10AnalysisMapsOfNameMap excludedNameMap 3)
      demoPatient "Z85.1" demoDate = (demoPatient, 1) :=
  ⟨(excluded_chapter_no_DID excludedNameMap 3 "Z85.1" historyEntryZ851
      (by decide) (by simp [excludedNameMap]) (by decide) (by decide)).1,
   (excluded_chapter_no_DID excludedNameMap 3 "Z85.1" historyEntryZ851
      (by decide) (by simp [excludedNameMap]) (by decide) (by decide)).2
     demoPatient demoDate⟩

/-! ## DID bounds of the XML code map (invariant I1, C3) -/

/-- All DIDs recorded so far are below the running counter. -/
def xmlStateBounded (st : XmlMapsState) : Prop :=
  (∀ q ∈ st.analysisIdMap, q.2 < st.ctr) ∧
  (∀ q ∈ st.nameToAnalysisIdMap, q.2 < st.ctr)

theorem xmlMapsStep_bounded (level : Nat) (st : XmlMapsState)
    (ce : String × Icd10Entry) (h : xmlStateBounded st) :
    xmlStateBounded (xmlMapsStep level st ce) := by
  obtain ⟨hid, hname⟩ := h
  unfold xmlMapsStep
  split
  · exact ⟨hid, hname⟩
  · split
    · rename_i newID hlk
      refine ⟨?_, hname⟩
      intro q hq
      rcases List.mem_cons.mp hq with he | ht
      · rw [he]
        show newID < st.ctr
        exact hname _ (lookupA_mem hlk)
      · exact hid q ht
    · refine ⟨?_, ?_⟩
      · intro q hq
        rcases List.mem_cons.mp hq with he | ht
        · rw [he]
          exact Nat.lt_succ_self _
        · exact Nat.lt_succ_of_lt (hid q ht)
      · intro q hq
        rcases List.mem_cons.mp hq with he | ht
        · rw [he]
          exact Nat.lt_succ_self _
        · exact Nat.lt_succ_of_lt (hname q ht)

theorem xmlMapsFold_bounded (level : Nat) (l : List (String × Icd10Entry))
    (st : XmlMapsState) (h : xmlStateBounded st) :
    xmlStateBounded (l.foldl (xmlMapsStep level) st) := by
  induction l generalizing st with
  | nil => exact h
  | cons hd tl ih =>
    rw [List.foldl_cons]
    exact ih _ (xmlMapsStep_bounded level st hd h)

theorem xmlExtraStep_bounded (st : XmlMapsState) (cn : String × String)
    (h : xmlStateBounded st) : xmlStateBounded (xmlExtraStep st cn) := by
  obtain ⟨hid, hname⟩ := h
  unfold xmlExtraStep
  refine ⟨?_, ?_⟩
  · intro q hq
    rcases List.mem_cons.mp hq with he | ht
    · rw [he]
      exact Nat.lt_succ_self _
    · exact Nat.lt_succ_of_lt (hid q ht)
  · intro q hq
    rcases List.mem_cons.mp hq with he | ht
    · rw [he]
      exact Nat.lt_succ_self _
    · exact Nat.lt_succ_of_lt (hname q ht)

theorem xmlMapsAddExtras_bounded (st : XmlMapsState)
    (h : xmlStateBounded st) : xmlStateBounded (xmlMapsAddExtras st) := by
  unfold xmlMapsAddExtras nonICD10CodesToAddToAnalysis
  rw [List.foldl_cons, List.foldl_cons, List.foldl_cons, List.foldl_nil]
  exact xmlExtraStep_bounded _ _ (xmlExtraStep_bounded _ _ (xmlExtraStep_bounded _ _ h))

/-- The finished XML analysis map is bounded: every DID it can hand out is
below its `NofDiagnosisCodes` counter. -/
theorem icd10AnalysisMapsOfNameMap_bounded
    (icd10Map : List (String × Icd10Entry)) (level : Nat) :
    xmlStateBounded (icd10AnalysisMapsOfNameMap icd10Map level) := by
  unfold icd10AnalysisMapsOfNameMap
  exact xmlMapsAddExtras_bounded _
    (xmlMapsFold_bounded level icd10Map _ ⟨fun q hq => absurd hq (List.not_mem_nil q), fun q hq => absurd hq (List.not_mem_nil q)⟩)

/-- The extras loop always advances the counter by three, so
`NofDiagnosisCodes` is at least 3. -/
theorem xmlMapsAddExtras_ctr (st : XmlMapsState) :
    (xmlMapsAddExtras st).ctr = st.ctr + 3 := by
  unfold xmlMapsAddExtras nonICD10CodesToAddToAnalysis
  rw [List.foldl_cons, List.foldl_cons, List.foldl_cons, List.foldl_nil]
  rfl

/-! ## CCSR code map (`initializeIcd10AnalysisMapsCCSR`) -/

/-- CCSR categories of an ICD-10 code (struct `ccsrCategory`,
`lib/parseData.go` lines 339-343): default category name and id plus the
alternative categories, a map from CCSR category id to category name
(iterated in the order given by this list). -/
structure CcsrCategory where
  name : String
  id : String
  categories : List (String × String)
deriving DecidableEq, Repr

/-- State threaded through `initializeIcd10AnalysisMapsCCSR`
(`lib/parseData.go` lines 426-429): `analysisIdMap`, `analysisIcd10Map`,
`ccsrIDMap` and the id counter `ctr`. -/
structure CcsrMapsState where
  analysisIdMap : List (String × List Nat)
  analysisIcd10Map : List (Nat × Icd10Entry)
  ccsrIDMap : List (String × Nat)
  ctr : Nat
deriving Repr

/-- Inner loop of `initializeIcd10AnalysisMapsCCSR` over the categories of
one code (`lib/parseData.go` lines 436-446): reuse the id of a known CCSR
category, otherwise allot a fresh one, and append it to `ids`. -/
def ccsrCatStep (acc : CcsrMapsState × List Nat) (cat : String × String) :
    CcsrMapsState × List Nat :=
  match lookupA acc.1.ccsrIDMap cat.1 with
  | some ccsrID => (acc.1, acc.2 ++ [ccsrID])
  | none =>
    ({ acc.1 with
        analysisIcd10Map :=
          (acc.1.ctr, { Name := cat.2, Categories := [], Level := 0 }) :: acc.1.analysisIcd10Map,
        ccsrIDMap := (cat.1, acc.1.ctr) :: acc.1.ccsrIDMap,
        ctr := acc.1.ctr + 1 },
      acc.2 ++ [acc.1.ctr])

/-- Outer loop body of `initializeIcd10AnalysisMapsCCSR`
(`lib/parseData.go` lines 431-448): skip codes whose first letter is in the
excluded set (`icd10Code[0:1]`), otherwise record the list of analysis ids
of the code's CCSR categories. -/
def ccsrStep (st : CcsrMapsState) (ce : String × CcsrCategory) : CcsrMapsState :=
  if icd10CodesToExcludeFromAnalysis.contains (strTake ce.1 1) then st
  else
    { (ce.2.categories.foldl ccsrCatStep (st, [])).1 with
        analysisIdMap :=
          (ce.1, (ce.2.categories.foldl ccsrCatStep (st, [])).2) ::
            (ce.2.categories.foldl ccsrCatStep (st, [])).1.analysisIdMap }

/-- The extras loop of `initializeIcd10AnalysisMapsCCSR`
(`lib/parseData.go` lines 449-454). -/
def ccsrExtraStep (st : CcsrMapsState) (cn : String × String) : CcsrMapsState :=
  { st with
      analysisIcd10Map :=
        (st.ctr, { Name := cn.2, Categories := [], Level := 0 }) :: st.analysisIcd10Map,
      analysisIdMap := (cn.1, [st.ctr]) :: st.analysisIdMap,
      ctr := st.ctr + 1 }

/-- `initializeIcd10AnalysisMapsCCSR` (`lib/parseData.go` lines 425-457);
the returned `ctr` is the `NofDiagnosisCodes` of the resulting
`icd10AnalysisMapsFromCCSR`. -/
def icd10AnalysisMapsCCSR (tab : List (String × CcsrCategory)) : CcsrMapsState :=
  nonICD10CodesToAddToAnalysis.foldl ccsrExtraStep (tab.foldl ccsrStep ⟨[], [], [], 0⟩)

/-- `icd10AnalysisMapsFromCCSR.getDID` (`lib/parseData.go` lines 479-484):
`none` embeds the Go `nil` result for an unknown code. -/
def ccsrGetDID (st : CcsrMapsState) (icd10DID : String) : Option (List Nat) :=
  lookupA st.analysisIdMap icd10DID

/-- `icd10AnalysisMapsFromCCSR.fillInPatientDiagnoses`
(`lib/parseData.go` lines 545-555).  A stored empty id list is a Go `nil`
slice (the inner loop appended nothing), so it is rejected exactly like a
missing code. -/
def ccsrFillInPatientDiagnoses (st : CcsrMapsState) (patient : Patient)
    (DIDString : String) (date : DiagnosisDate) : Patient × Nat :=
  match ccsrGetDID st DIDString with
  | none => (patient, 1)
  | some [] => (patient, 1)
  | some DIDs =>
    (DIDs.foldl
      (fun p DID => p.AddDiagnosis { PID := patient.PID, DID := DID, Date := date })
      patient, 0)

/-- One `if info.XXDate != nil { ... AddDiagnosis ... }` block of the
`fillInNonICDPatientDiagnoses` methods: add a diagnosis with the given DID
when the treatment date is present. -/
def addTreatmentDiagnosis (pid did : Nat) (dOpt : Option DiagnosisDate)
    (p : Patient) : Patient :=
  match dOpt with
  | some d => p.AddDiagnosis { PID := pid, DID := did, Date := d }
  | none => p

/-- The CCSR variant of a treatment block: one diagnosis per DID in the
`DIDMap` entry of the mockup code. -/
def addTreatmentDiagnosisList (pid : Nat) (dids : List Nat)
    (dOpt : Option DiagnosisDate) (p : Patient) : Patient :=
  match dOpt with
  | some d => dids.foldl
      (fun p did => p.AddDiagnosis { PID := pid, DID := did, Date := d }) p
  | none => p

/-- `icd10AnalysisMapsFromXML.fillInNonICDPatientDiagnoses`
(`lib/parseData.go` lines 557-577).  The Go source indexes
`analysisMap.DIDMap["C98"]` without an `ok` check; a missing key yields the
Go zero value 0, embedded with `Option.getD 0`. -/
def xmlFillInNonICDPatientDiagnoses (st : XmlMapsState) (patient : Patient)
    (infoMap : List (String × TreatmentInfo)) : Patient × Nat :=
  match lookupA infoMap patient.PIDString with
  | none => (patient, 0)
  | some info =>
    (addTreatmentDiagnosis patient.PID ((lookupA st.analysisIdMap "C100").getD 0) info.IVTDate
      (addTreatmentDiagnosis patient.PID ((lookupA st.analysisIdMap "C99").getD 0) info.MVACDate
        (addTreatmentDiagnosis patient.PID ((lookupA st.analysisIdMap "C98").getD 0) info.RCDate
          patient)),
     if info.RCDate.isSome || info.MVACDate.isSome || info.IVTDate.isSome then 1 else 0)

/-- `icd10AnalysisMapsFromCCSR.fillInNonICDPatientDiagnoses`
(`lib/parseData.go` lines 579-608); a missing `DIDMap` key yields the Go
`nil` slice, embedded with `Option.getD []` (then the loop adds nothing and
the flag stays 0 for that treatment). -/
def ccsrFillInNonICDPatientDiagnoses (st : CcsrMapsState) (patient : Patient)
    (infoMap : List (String × TreatmentInfo)) : Patient × Nat :=
  match lookupA infoMap patient.PIDString with
  | none => (patient, 0)
  | some info =>
    (addTreatmentDiagnosisList patient.PID ((lookupA st.analysisIdMap "C100").getD []) info.IVTDate
      (addTreatmentDiagnosisList patient.PID ((lookupA st.analysisIdMap "C99").getD []) info.MVACDate
        (addTreatmentDiagnosisList patient.PID ((lookupA st.analysisIdMap "C98").getD []) info.RCDate
          patient)),
     if (info.RCDate.isSome = true ∧ (lookupA st.analysisIdMap "C98").getD [] ≠ []) ∨
        (info.MVACDate.isSome = true ∧ (lookupA st.analysisIdMap "C99").getD [] ≠ []) ∨
        (info.IVTDate.isSome = true ∧ (lookupA st.analysisIdMap "C100").getD [] ≠ []) then 1 else 0)

/-- All DIDs recorded in the CCSR state are below the running counter. -/
def ccsrStateBounded (st : CcsrMapsState) : Prop :=
  (∀ q ∈ st.analysisIdMap, ∀ i ∈ q.2, i < st.ctr) ∧
  (∀ q ∈ st.ccsrIDMap, q.2 < st.ctr)

theorem ccsrCatFold_bounded (cats : List (String × String))
    (st : CcsrMapsState) (ids : List Nat)
    (hst : ccsrStateBounded st) (hids : ∀ i ∈ ids, i < st.ctr) :
    ccsrStateBounded (cats.foldl ccsrCatStep (st, ids)).1 ∧
    (∀ i ∈ (cats.foldl ccsrCatStep (st, ids)).2,
        i < (cats.foldl ccsrCatStep (st, ids)).1.ctr) ∧
    st.ctr ≤ (cats.foldl ccsrCatStep (st, ids)).1.ctr := by
  induction cats generalizing st ids with
  | nil => exact ⟨hst, hids, Nat.le_refl _⟩
  | cons hd tl ih =>
    rw [List.foldl_cons]
    unfold ccsrCatStep
    split
    · rename_i ccsrID hlk
      exact ih st _ hst (by
        intro i hi
        rcases List.mem_append.mp hi with h1 | h2
        · exact hids i h1
        · rw [List.mem_singleton.mp h2]
          exact hst.2 _ (lookupA_mem hlk))
    · obtain ⟨hida, hccsr⟩ := hst
      have hres := ih
        { st with
            analysisIcd10Map := (st.ctr, { Name := hd.2, Categories := [], Level := 0 }) :: st.analysisIcd10Map,
            ccsrIDMap := (hd.1, st.ctr) :: st.ccsrIDMap,
            ctr := st.ctr + 1 }
        (ids ++ [st.ctr])
        ⟨fun q hq i hi => Nat.lt_succ_of_lt (hida q hq i hi),
         by
          intro q hq
          rcases List.mem_cons.mp hq with he | ht
          · rw [he]
            exact Nat.lt_succ_self _
          · exact Nat.lt_succ_of_lt (hccsr q ht)⟩
        (by
          intro i hi
          rcases List.mem_append.mp hi with h1 | h2
          · exact Nat.lt_succ_of_lt (hids i h1)
          · rw [List.mem_singleton.mp h2]
            exact Nat.lt_succ_self _)
      exact ⟨hres.1, hres.2.1, Nat.le_trans (Nat.le_succ _) hres.2.2⟩

theorem ccsrStep_bounded (st : CcsrMapsState) (ce : String × CcsrCategory)
    (h : ccsrStateBounded st) :
    ccsrStateBounded (ccsrStep st ce) ∧ st.ctr ≤ (ccsrStep st ce).ctr := by
  unfold ccsrStep
  split
  · exact ⟨h, Nat.le_refl _⟩
  · obtain ⟨hb, hidsb, hle⟩ :=
      ccsrCatFold_bounded ce.2.categories st [] h (fun i hi => absurd hi (List.not_mem_nil i))
    refine ⟨⟨?_, hb.2⟩, hle⟩
    intro q hq
    rcases List.mem_cons.mp hq with he | ht
    · rw [he]
      exact hidsb
    · exact hb.1 q ht

theorem ccsrFold_bounded (tab : List (String × CcsrCategory))
    (st : CcsrMapsState) (h : ccsrStateBounded st) :
    ccsrStateBounded (tab.foldl ccsrStep st) := by
  induction tab generalizing st with
  | nil => exact h
  | cons hd tl ih =>
    rw [List.foldl_cons]
    exact ih _ (ccsrStep_bounded st hd h).1

theorem ccsrExtraStep_bounded (st : CcsrMapsState) (cn : String × String)
    (h : ccsrStateBounded st) : ccsrStateBounded (ccsrExtraStep st cn) := by
  obtain ⟨hida, hccsr⟩ := h
  unfold ccsrExtraStep
  refine ⟨?_, fun q hq => Nat.lt_succ_of_lt (hccsr q hq)⟩
  intro q hq
  rcases List.mem_cons.mp hq with he | ht
  · rw [he]
    intro i hi
    rw [List.mem_singleton.mp hi]
    exact Nat.lt_succ_self _
  · intro i hi
    exact Nat.lt_succ_of_lt (hida q ht i hi)

/-- The finished CCSR analysis map is bounded. -/
theorem icd10AnalysisMapsCCSR_bounded (tab : List (String × CcsrCategory)) :
    ccsrStateBounded (icd10AnalysisMapsCCSR tab) := by
  unfold icd10AnalysisMapsCCSR nonICD10CodesToAddToAnalysis
  rw [List.foldl_cons, List.foldl_cons, List.foldl_cons, List.foldl_nil]
  exact ccsrExtraStep_bounded _ _ (ccsrExtraStep_bounded _ _ (ccsrExtraStep_bounded _ _
    (ccsrFold_bounded tab _
      ⟨fun q hq => absurd hq (List.not_mem_nil q), fun q hq => absurd hq (List.not_mem_nil q)⟩)))

/-- Every DID of every diagnosis of the patient is below `D` (the claim's
`DID ∈ [0, D)`: DIDs are naturals, so the lower bound is intrinsic). -/
def patientDIDsBelow (D : Nat) (p : Patient) : Prop :=
  ∀ d ∈ p.Diagnoses, d.DID < D

theorem patientDIDsBelow_add {D : Nat} {p : Patient} {d : Diagnosis}
    (hp : patientDIDsBelow D p) (hd : d.DID < D) :
    patientDIDsBelow D (p.AddDiagnosis d) := by
  intro x hx
  unfold Patient.AddDiagnosis at hx
  simp only at hx
  rcases List.mem_append.mp hx with h1 | h2
  · exact hp x h1
  · rw [List.mem_singleton.mp h2]
    exact hd

theorem patientDIDsBelow_addFold {D : Nat} {ids : List Nat} {p : Patient}
    {pid : Nat} {date : DiagnosisDate}
    (hids : ∀ i ∈ ids, i < D) (hp : patientDIDsBelow D p) :
    patientDIDsBelow D
      (ids.foldl (fun p DID => p.AddDiagnosis { PID := pid, DID := DID, Date := date }) p) := by
  induction ids generalizing p with
  | nil => exact hp
  | cons hd tl ih =>
    rw [List.foldl_cons]
    exact ih (fun i hi => hids i (List.mem_cons_of_mem _ hi))
      (patientDIDsBelow_add hp (hids hd (List.mem_cons_self _ _)))

theorem patientDIDsBelow_addTreatment {D pid did : Nat}
    {dOpt : Option DiagnosisDate} {p : Patient}
    (hp : patientDIDsBelow D p) (hd : did < D) :
    patientDIDsBelow D (addTreatmentDiagnosis pid did dOpt p) := by
  unfold addTreatmentDiagnosis
  cases dOpt with
  | none => exact hp
  | some d => exact patientDIDsBelow_add hp hd

theorem patientDIDsBelow_addTreatmentList {D pid : Nat} {dids : List Nat}
    {dOpt : Option DiagnosisDate} {p : Patient}
    (hp : patientDIDsBelow D p) (hd : ∀ i ∈ dids, i < D) :
    patientDIDsBelow D (addTreatmentDiagnosisList pid dids dOpt p) := by
  unfold addTreatmentDiagnosisList
  cases dOpt with
  | none => exact hp
  | some d => exact patientDIDsBelow_addFold hd hp

/-- The XML map counter is at least 3 (the extras are always appended),
so the Go zero-value fallback DID 0 is in range. -/
theorem icd10AnalysisMapsOfNameMap_ctr_pos
    (m : List (String × Icd10Entry)) (level : Nat) :
    0 < (icd10AnalysisMapsOfNameMap m level).ctr := by
  unfold icd10AnalysisMapsOfNameMap
  rw [xmlMapsAddExtras_ctr]
  omega

theorem xml_getD_DID_lt (m : List (String × Icd10Entry)) (level : Nat)
    (s : String) :
    (lookupA (icd10AnalysisMapsOfNameMap m level).analysisIdMap s).getD 0 <
      (icd10AnalysisMapsOfNameMap m level).ctr := by
  cases hlk : lookupA (icd10AnalysisMapsOfNameMap m level).analysisIdMap s with
  | none =>
    simp only [Option.getD_none]
    exact icd10AnalysisMapsOfNameMap_ctr_pos m level
  | some i =>
    simp only [Option.getD_some]
    exact (icd10AnalysisMapsOfNameMap_bounded m level).1 _ (lookupA_mem hlk)

theorem ccsr_getD_DIDs_lt (tab : List (String × CcsrCategory)) (s : String) :
    ∀ i ∈ (lookupA (icd10AnalysisMapsCCSR tab).analysisIdMap s).getD [],
      i < (icd10AnalysisMapsCCSR tab).ctr := by
  cases hlk : lookupA (icd10AnalysisMapsCCSR tab).analysisIdMap s with
  | none =>
    simp only [Option.getD_none]
    intro i hi
    exact absurd hi (List.not_mem_nil i)
  | some ids =>
    simp only [Option.getD_some]
    exact (icd10AnalysisMapsCCSR_bounded tab).1 _ (lookupA_mem hlk)

/-- C3 theorem (invariant I1).  For both code-map constructions, every
diagnosis added during parsing — via `fillInPatientDiagnoses` on a
diagnosis-CSV code or via `fillInNonICDPatientDiagnoses` from the treatment
file — carries a DID below the `NofDiagnosisCodes` value `D` (the final
`ctr`) of the map; DIDs are naturals, so they lie in `[0, D)`. -/
theorem diagnosis_DIDs_in_range
    (m : List (String × Icd10Entry)) (level : Nat)
    (tab : List (String × CcsrCategory))
    (p : Patient) (c : String) (date : DiagnosisDate)
    (infoMap : List (String × TreatmentInfo)) :
    (patientDIDsBelow (icd10AnalysisMapsOfNameMap m level).ctr p →
      patientDIDsBelow (icd10AnalysisMapsOfNameMap m level).ctr
        (xmlFillInPatientDiagnoses (icd10AnalysisMapsOfNameMap m level) p c date).1) ∧
    (patientDIDsBelow (icd10AnalysisMapsOfNameMap m level).ctr p →
      patientDIDsBelow (icd10AnalysisMapsOfNameMap m level).ctr
        (xmlFillInNonICDPatientDiagnoses (icd10AnalysisMapsOfNameMap m level) p infoMap).1) ∧
    (patientDIDsBelow (icd10AnalysisMapsCCSR tab).ctr p →
      patientDIDsBelow (icd10AnalysisMapsCCSR tab).ctr
        (ccsrFillInPatientDiagnoses (icd10AnalysisMapsCCSR tab) p c date).1) ∧
    (patientDIDsBelow (icd10AnalysisMapsCCSR tab).ctr p →
      patientDIDsBelow (icd10AnalysisMapsCCSR tab).ctr
        (ccsrFillInNonICDPatientDiagnoses (icd10AnalysisMapsCCSR tab) p infoMap).1) := by
  refine ⟨?_, ?_, ?_, ?_⟩
  · intro hp
    unfold xmlFillInPatientDiagnoses
    cases hlk : xmlGetDID (icd10AnalysisMapsOfNameMap m level) c with
    | none => exact hp
    | some i =>
      exact patientDIDsBelow_add hp
        ((icd10AnalysisMapsOfNameMap_bounded m level).1 _ (lookupA_mem hlk))
  · intro hp
    unfold xmlFillInNonICDPatientDiagnoses
    cases lookupA infoMap p.PIDString with
    | none => exact hp
    | some info =>
      exact patientDIDsBelow_addTreatment
        (patientDIDsBelow_addTreatment
          (patientDIDsBelow_addTreatment hp (xml_getD_DID_lt m level "C98"))
          (xml_getD_DID_lt m level "C99"))
        (xml_getD_DID_lt m level "C100")
  · intro hp
    unfold ccsrFillInPatientDiagnoses
    cases hlk : ccsrGetDID (icd10AnalysisMapsCCSR tab) c with
    | none => exact hp
    | some ids =>
      cases ids with
      | nil => exact hp
      | cons i rest =>
        exact patientDIDsBelow_addFold
          ((icd10AnalysisMapsCCSR_bounded tab).1 _ (lookupA_mem hlk)) hp
  · intro hp
    unfold ccsrFillInNonICDPatientDiagnoses
    cases lookupA infoMap p.PIDString with
    | none => exact hp
    | some info =>
      exact patientDIDsBelow_addTreatmentList
        (patientDIDsBelow_addTreatmentList
          (patientDIDsBelow_addTreatmentList hp (ccsr_getD_DIDs_lt tab "C98"))
          (ccsr_getD_DIDs_lt tab "C99"))
        (ccsr_getD_DIDs_lt tab "C100")

/-- A one-code CCSR table for the C3 witness. -/
def demoCcsrTable : List (String × CcsrCategory) :=
  [("C67.0", { name := "GEN003", id := "Cancer of bladder",
               categories := [("GEN003", "Cancer of bladder")] })]

/-- A concrete treatment-info map for the C3 witness. -/
def demoInfoMap : List (String × TreatmentInfo) :=
  [("p1", { RCDate := some { Year := 2019, Month := 3, Day := 2 },
            MVACDate := none,
            IVTDate := some { Year := 2021, Month := 7, Day := 9 } })]

/-- C3 witness: the four fill-in paths at concrete inputs keep every
diagnosis DID below `NofDiagnosisCodes`. -/
theorem diagnosis_DIDs_in_range_witness :
    patientDIDsBelow (icd10AnalysisMapsOfNameMap choleraNameMap 2).ctr
      (xmlFillInPatientDiagnoses (icd10AnalysisMapsOfNameMap choleraNameMap 2)
        demoPatient "A00.0" demoDate).1 ∧
    patientDIDsBelow (icd10AnalysisMapsOfNameMap choleraNameMap 2).ctr
      (xmlFillInNonICDPatientDiagnoses (icd10AnalysisMapsOfNameMap choleraNameMap 2)
        demoPatient demoInfoMap).1 ∧
    patientDIDsBelow (icd10AnalysisMapsCCSR demoCcsrTable).ctr
      (ccsrFillInPatientDiagnoses (icd10AnalysisMapsCCSR demoCcsrTable)
        demoPatient "A00.0" demoDate).1 ∧
    patientDIDsBelow (icd10AnalysisMapsCCSR demoCcsrTable).ctr
      (ccsrFillInNonICDPatientDiagnoses (icd10AnalysisMapsCCSR demoCcsrTable)
        demoPatient demoInfoMap).1 := by
  have hempty1 : patientDIDsBelow (icd10AnalysisMapsOfNameMap choleraNameMap 2).ctr demoPatient := by
    intro d hd
    simp [demoPatient] at hd
  have hempty2 : patientDIDsBelow (icd10AnalysisMapsCCSR demoCcsrTable).ctr demoPatient := by
    intro d hd
    simp [demoPatient] at hd
  obtain ⟨h1, h2, h3, h4⟩ :=
    diagnosis_DIDs_in_range choleraNameMap 2 demoCcsrTable demoPatient "A00.0"
      demoDate demoInfoMap
  exact ⟨h1 hempty1, h2 hempty1, h3 hempty2, h4 hempty2⟩

/-! ## Cohort age buckets (`parseTriNetXPatientData`) -/

/-- The `ageRange` computation of `parseTriNetXPatientData`
(`lib/parseData.go` lines 716-717):
`math.Ceil(float64(maxYOB-minYOB) / float64(nofCohortAges))`.
For `1 ≤ A` and year spans far below 2^53 the float64 quotient is exact
enough that the ceiling equals the natural ceiling division
`(d + A - 1) / A`. -/
def goCohortAgeRange (minYOB maxYOB nofCohortAges : Nat) : Nat :=
  (maxYOB - minYOB + nofCohortAges - 1) / nofCohortAges

/-- The CohortAge assignment of `parseTriNetXPatientData`
(`lib/parseData.go` lines 718-722): executed only when
`nofCohortAges > 1`; a freshly parsed patient starts with `CohortAge: 0`
(line 704).  `int(math.Floor(float64(YOB-minYOB)/ageRange))` is natural
division for these magnitudes; the `maxYOB = minYOB` case makes the
divisor 0 and the Go float division produce NaN, which is outside this
exact model, so the range theorems assume `minYOB < maxYOB`. -/
def assignCohortAge (nofCohortAges minYOB maxYOB : Nat) (p : Patient) : Patient :=
  if 1 < nofCohortAges then
    { p with CohortAge := (p.YOB - minYOB) / goCohortAgeRange minYOB maxYOB nofCohortAges }
  else p

/-- C8 theorem (code divergence).  At the configuration documented in
`cmd/ptra/main.go` (min birth year 1900, max 2020, 10 age groups), the
patient born in `maxYOB` is assigned cohort-age bucket 10, which is outside
the claimed range `0..A-1 = 0..9`: whenever `A` divides
`ceil((maxYOB-minYOB)/A)`-spaced range exactly, the youngest patients get
bucket `A`. -/
theorem cohortAge_escapes_range_at_doc_example :
    (assignCohortAge 10 1900 2020 { demoPatient with YOB := 2020 }).CohortAge = 10 ∧
    ¬((assignCohortAge 10 1900 2020 { demoPatient with YOB := 2020 }).CohortAge ≤ 9) := by
  decide

/-! ## CLI flag handling (`cmd/ptra/main.go`) -/

/-- Result of `flags.Parse` in `parseFlags`: success, the `flag.ErrHelp`
sentinel, or any other parse error (e.g. an invalid flag value). -/
inductive FlagParseOutcome where
  | success
  | errHelp
  | errOther
deriving DecidableEq, Repr

/-- Exit behavior of `parseFlags` (`cmd/ptra/main.go` lines 121-141):
`some code` when the function reaches `os.Exit(code)`, `none` when it
returns normally.  Fewer than `requiredArgs` entries in `os.Args` exits 1;
a parse failure prints and exits `x`, where `x := 0` is initialized at
line 129 and never reassigned — so both the help path and the genuine
flag-error path exit 0; leftover positional arguments exit 1. -/
def parseFlagsExitCode (nofOsArgs requiredArgs : Nat)
    (outcome : FlagParseOutcome) (nofRemainingArgs : Nat) : Option Nat :=
  if nofOsArgs < requiredArgs then some 1
  else
    match outcome with
    | FlagParseOutcome.errHelp => some 0
    | FlagParseOutcome.errOther => some 0
    | FlagParseOutcome.success =>
      if nofRemainingArgs > 0 then some 1 else none

/-- C4 theorem (code divergence).  An invocation with all positional
arguments present (7 entries in `os.Args`) whose flag list fails to parse
(an invalid flag value, outcome `errOther`) exits with code 0 — not 1 as
the specification claims. -/
theorem parseFlags_flag_error_exits_zero :
    parseFlagsExitCode 7 5 FlagParseOutcome.errOther 0 = some 0 ∧
    parseFlagsExitCode 7 5 FlagParseOutcome.errOther 0 ≠ some 1 := by
  decide

/-! ## The experiment driver (`app/experiment.go`) -/

/-- Outcome of one pipeline stage executed inside `Run`: normal
completion or a panic escaping the stage into `Run`'s goroutine. -/
inductive StageOutcome where
  | ok
  | panicked (msg : String)
deriving DecidableEq, Repr

/-- The body of `Run` (`app/experiment.go` lines 75-135) before the
deferred recover: `os.MkdirAll` failure returns its error without
panicking; then the parsing, RR-estimation, trajectory-building and output
stages run in sequence, each able to panic; the optional clustering stage
returns an error value (also returned when non-nil).  `Except.error m`
is a panic with value `m` escaping the body. -/
def runBody (mkdirErr : Option String)
    (parseStage rrStage buildStage printStage : StageOutcome)
    (clusterErr : Option String) : Except String (Option String) :=
  match mkdirErr with
  | some e => Except.ok (some e)
  | none =>
    match parseStage with
    | StageOutcome.panicked m => Except.error m
    | StageOutcome.ok =>
      match rrStage with
      | StageOutcome.panicked m => Except.error m
      | StageOutcome.ok =>
        match buildStage with
        | StageOutcome.panicked m => Except.error m
        | StageOutcome.ok =>
          match printStage with
          | StageOutcome.panicked m => Except.error m
          | StageOutcome.ok => Except.ok clusterErr

/-- `Run` (`app/experiment.go` lines 66-73): the deferred function
recovers any panic `r` of the body and replaces the returned error by
`failed to run experiment: r`; a normal return passes the body's error
value through. -/
def RunExperiment (mkdirErr : Option String)
    (parseStage rrStage buildStage printStage : StageOutcome)
    (clusterErr : Option String) : Option String :=
  match runBody mkdirErr parseStage rrStage buildStage printStage clusterErr with
  | Except.error m => some ("failed to run experiment: " ++ m)
  | Except.ok e => e

/-- C9 theorem.  Whenever a stage of `Run` panics — parsing, estimation,
or trajectory building (or the output stage) — the deferred recover turns
the panic into a non-nil error returned by `Run`, so the process does not
crash inside `Run`. -/
theorem run_stage_panic_returns_error (mkdirErr : Option String)
    (parseStage rrStage buildStage printStage : StageOutcome)
    (clusterErr : Option String)
    (h : (∃ m, parseStage = StageOutcome.panicked m) ∨
         (∃ m, rrStage = StageOutcome.panicked m) ∨
         (∃ m, buildStage = StageOutcome.panicked m) ∨
         (∃ m, printStage = StageOutcome.panicked m)) :
    (RunExperiment mkdirErr parseStage rrStage buildStage printStage clusterErr).isSome = true := by
  cases mkdirErr with
  | some e => simp [RunExperiment, runBody]
  | none =>
    cases parseStage with
    | panicked m => simp [RunExperiment, runBody]
    | ok =>
      cases rrStage with
      | panicked m => simp [RunExperiment, runBody]
      | ok =>
        cases buildStage with
        | panicked m => simp [RunExperiment, runBody]
        | ok =>
          cases printStage with
          | panicked m => simp [RunExperiment, runBody]
          | ok =>
            exfalso
            rcases h with ⟨m, hm⟩ | ⟨m, hm⟩ | ⟨m, hm⟩ | ⟨m, hm⟩ <;> cases hm

/-- C9 witness: a panic in the RR-estimation stage yields a non-nil error
from `Run`. -/
theorem run_stage_panic_returns_error_witness :
    (RunExperiment none StageOutcome.ok (StageOutcome.panicked "estimator worker failure")
      StageOutcome.ok StageOutcome.ok none).isSome = true :=
  run_stage_panic_returns_error none StageOutcome.ok
    (StageOutcome.panicked "estimator worker failure") StageOutcome.ok StageOutcome.ok none
    (Or.inr (Or.inl ⟨"estimator worker failure", rfl⟩))

/-! ## Treatment CSV parsing (`parseTriNetXTreatmentFile`) -/

/-- `parseTriNetXDiagnosisDate` (`lib/parseData.go` lines 740-754): reads
`date[0:4]`, `date[5:7]`, `date[8:10]` with `strconv.Atoi` and panics on
failure; the panic (including a short string, which panics on the byte
slice) is `none`. -/
def parseTriNetXDiagnosisDate (date : String) : Option DiagnosisDate :=
  if date.data.length < 10 then none
  else
    match goAtoiNat (strTake date 4), goAtoiNat (strTake (strDrop date 5) 2),
        goAtoiNat (strTake (strDrop date 8) 2) with
    | some y, some mo, some d => some { Year := y, Month := mo, Day := d }
    | _, _, _ => none

/-- One `if len(record[i]) == 10 { d := parseTriNetXDiagnosisDate(...) }`
block of `parseTriNetXTreatmentFile`: outer `none` is a panic inside the
date parser, otherwise the optional parsed date (a column of the wrong
length is skipped, leaving the date pointer nil). -/
def readTreatmentDateCol (s : String) : Option (Option DiagnosisDate) :=
  if s.data.length = 10 then
    match parseTriNetXDiagnosisDate s with
    | some d => some (some d)
    | none => none
  else some none

/-- One row of `parseTriNetXTreatmentFile` (`lib/parseData.go` lines
788-811): columns 10, 11 and 13 are examined in order; column 10 is read
into `rcDate`, column 11 into `mvacDate`, and column 13 again into
`rcDate` (overwriting the column-10 value); `ivtDate` is declared but
never assigned.  The result is the `record[0] -> TreatmentInfo` binding
the row stores. -/
def parseTreatmentRecord (record : List String) : Option (String × TreatmentInfo) :=
  match readTreatmentDateCol (record.getD 10 ""),
      readTreatmentDateCol (record.getD 11 ""),
      readTreatmentDateCol (record.getD 13 "") with
  | some c10, some c11, some c13 =>
    some (record.getD 0 "",
      { RCDate := match c13 with
          | some d => some d
          | none => c10,
        MVACDate := c11,
        IVTDate := none })
  | _, _, _ => none

/-- `parseTriNetXTreatmentFile` (`lib/parseData.go` lines 776-813): fold
the row parser over the file, storing each row's binding (later rows
shadow earlier ones for the same patient id, as in the Go map). -/
def parseTriNetXTreatmentFile (records : List (List String)) :
    Option (List (String × TreatmentInfo)) :=
  records.foldlM (fun acc r => (parseTreatmentRecord r).map (fun q => q :: acc)) []

/-- A treatment row whose column 10 holds a valid 10-character date. -/
def demoTreatmentRow : List String :=
  ["p1", "", "", "", "", "", "", "", "", "", "2020-01-01", "", "", ""]

/-- C7 counterexample.  For a row with a valid date in column 10, the
parser stores the date in `RCDate` only: `IVTDate` is `nil`, so the date
is not "stored in both the RCDate and IVTDate fields" as claimed. -/
theorem treatment_IVTDate_counterexample :
    parseTreatmentRecord demoTreatmentRow =
      some ("p1",
        { RCDate := some { Year := 2020, Month := 1, Day := 1 },
          MVACDate := none, IVTDate := none }) ∧
    (parseTreatmentRecord demoTreatmentRow).map (fun q => q.2.IVTDate) ≠
      some (some { Year := 2020, Month := 1, Day := 1 }) := by
  constructor
  · rfl
  · decide

/-- C7 amended theorem.  For every successfully parsed treatment row:
`IVTDate` is never assigned (always `nil`); `MVACDate` comes from column
11; and `RCDate` comes from column 13 when that column holds a valid
10-character date, otherwise from column 10 — both date columns 10 and 13
are read into `RCDate`. -/
theorem treatment_row_fields (record : List String) (pid : String)
    (info : TreatmentInfo)
    (h : parseTreatmentRecord record = some (pid, info)) :
    info.IVTDate = none ∧
    info.MVACDate = (readTreatmentDateCol (record.getD 11 "")).join ∧
    info.RCDate =
      ((readTreatmentDateCol (record.getD 13 "")).join).or
        ((readTreatmentDateCol (record.getD 10 "")).join) := by
  unfold parseTreatmentRecord at h
  cases h10 : readTreatmentDateCol (record.getD 10 "") with
  | none =>
    rw [h10] at h
    exact Option.noConfusion h
  | some x10 =>
    rw [h10] at h
    cases h11 : readTreatmentDateCol (record.getD 11 "") with
    | none =>
      rw [h11] at h
      exact Option.noConfusion h
    | some x11 =>
      rw [h11] at h
      cases h13 : readTreatmentDateCol (record.getD 13 "") with
      | none =>
        rw [h13] at h
        exact Option.noConfusion h
      | some x13 =>
        rw [h13] at h
        simp only [Option.some.injEq, Prod.mk.injEq] at h
        obtain ⟨-, hinfo⟩ := h
        rw [← hinfo]
        refine ⟨rfl, rfl, ?_⟩
        cases x13 with
        | none => cases x10 <;> rfl
        | some d => rfl

/-- C7 witness for the amended theorem, at the concrete row. -/
theorem treatment_row_fields_witness :
    (({ RCDate := some { Year := 2020, Month := 1, Day := 1 },
        MVACDate := none, IVTDate := none } : TreatmentInfo)).IVTDate = none ∧
    (({ RCDate := some { Year := 2020, Month := 1, Day := 1 },
        MVACDate := none, IVTDate := none } : TreatmentInfo)).MVACDate =
      (readTreatmentDateCol (demoTreatmentRow.getD 11 "")).join ∧
    (({ RCDate := some { Year := 2020, Month := 1, Day := 1 },
        MVACDate := none, IVTDate := none } : TreatmentInfo)).RCDate =
      ((readTreatmentDateCol (demoTreatmentRow.getD 13 "")).join).or
        ((readTreatmentDateCol (demoTreatmentRow.getD 10 "")).join) :=
  treatment_row_fields demoTreatmentRow "p1"
    { RCDate := some { Year := 2020, Month := 1, Day := 1 },
      MVACDate := none, IVTDate := none } (by rfl)

/-! ## Patient and trajectory filters (`lib/parseData.go`, filters file) -/

/-- A trajectory as used by the trajectory filters (struct `Trajectory` of
the missing trajectory package; modelled from the spec: an ordered DID
sequence with transition supports and an optional cluster id). -/
structure Trajectory where
  ID : Nat := 0
  Diagnoses : List Nat := []
  PatientNumbers : List Nat := []
  Cluster : Nat := 0
deriving DecidableEq, Repr

/-- The fields of the `Experiment` struct (missing trajectory package)
read by the filters: the DID -> entry map and the DID -> original ICD-10
code map (modelled from the spec and the `ParseTriNetXData` construction
in `lib/parseData.go` lines 926-940). -/
structure Experiment where
  NofAgeGroups : Nat := 0
  Level : Nat := 0
  NofDiagnosisCodes : Nat := 0
  Name : String := ""
  Icd10Map : List (Nat × Icd10Entry) := []
  IdMap : List (Nat × String) := []
  NofRegions : Nat := 0
deriving Repr

/-- `PatientFilter`: the Go type is `func(patient *Patient) bool`; the
filters mutate the patient through the pointer, so the embedding returns
the updated patient along with the boolean. -/
def PatientFilter : Type := Patient → Patient × Bool

/-- `TrajectoryFilter`: `func(t *Trajectory) bool` (the trajectory filters
never mutate). -/
def TrajectoryFilter : Type := Trajectory → Bool

/-- The `id` filter of `GetPatientFilter`: accepts everyone, touches
nothing. -/
def idPatientFilter : PatientFilter := fun p => (p, true)

/-- The in-place update `p.Diagnoses = newD` performed by the mutating
filters. -/
def Patient.setDiagnoses (p : Patient) (l : List Diagnosis) : Patient :=
  { p with Diagnoses := l }

/-- Fallback `TumorInfo` for a Go indexing that cannot miss. -/
def defaultTumorInfo : TumorInfo :=
  { TStage := "", NStage := "", MStage := "", Stage := "",
    Date := { Year := 0, Month := 0, Day := 0 } }

/-- `cancerStageAggregator` (`lib/parseData.go` lines 1581-1614): keep a
patient iff some tumor-info entry satisfies the predicate; with
`tInfoToUseIndex` the LAST matching index, when a later entry exists the
patient's diagnoses at or after that next entry's date are dropped (the
Go loop keeps `d` with `DiagnosisDateSmallerThan(d.Date, nextStageDate)`,
mutating `p.Diagnoses`). -/
def cancerStageAggregator (pred : TumorInfo → Bool)
    (tInfoMap : List (String × List TumorInfo)) : PatientFilter :=
  fun p =>
    match lookupA tInfoMap p.PIDString with
    | none => (p, false)
    | some tInfos =>
      match tInfos.enum.foldl
          (fun acc it => if pred it.2 then some it.1 else acc) none with
      | none => (p, false)
      | some tInfoToUseIndex =>
        if tInfoToUseIndex + 1 < tInfos.length then
          (p.setDiagnoses (p.Diagnoses.filter
              (fun d => DiagnosisDateSmallerThan d.Date
                (tInfos.getD (tInfoToUseIndex + 1) defaultTumorInfo).Date)), true)
        else (p, true)

/-- `NMIBCAggregator` (`lib/parseData.go` lines 1618-1626). -/
def NMIBCAggregator (tinfoMap : List (String × List TumorInfo)) : PatientFilter :=
  cancerStageAggregator
    (fun t => t.TStage == "Tis" || t.TStage == "Ta" ||
      (t.TStage == "T1" && t.NStage == "N0" && t.MStage == "M0")) tinfoMap

/-- `MIBCAggregator` (`lib/parseData.go` lines 1630-1639). -/
def MIBCAggregator (tinfoMap : List (String × List TumorInfo)) : PatientFilter :=
  cancerStageAggregator
    (fun t => t.TStage == "T2" || t.TStage == "T3" ||
      (t.TStage == "T4" && t.MStage == "M0" &&
        (t.NStage == "N0" || t.NStage == "N1" || t.NStage == "N2" || t.NStage == "N3")))
    tinfoMap

/-- `MUCAggregator` (`lib/parseData.go` lines 1643-1650); the source
tests `MStage == "M0"` although the name suggests metastatic. -/
def MUCAggregator (tinfoMap : List (String × List TumorInfo)) : PatientFilter :=
  cancerStageAggregator (fun t => t.MStage == "M0") tinfoMap

/-- `TaStageAggregator` (`lib/parseData.go` lines 1653-1660). -/
def TaStageAggregator (tinfoMap : List (String × List TumorInfo)) : PatientFilter :=
  cancerStageAggregator (fun t => t.TStage == "Ta") tinfoMap

/-- `T1StageAggregator` (`lib/parseData.go` lines 1663-1670). -/
def T1StageAggregator (tinfoMap : List (String × List TumorInfo)) : PatientFilter :=
  cancerStageAggregator
    (fun t => t.TStage == "T1" || t.TStage == "T1a" || t.TStage == "T1c") tinfoMap

/-- `TisStageAggregator` (`lib/parseData.go` lines 1673-1680). -/
def TisStageAggregator (tinfoMap : List (String × List TumorInfo)) : PatientFilter :=
  cancerStageAggregator (fun t => t.TStage == "Tis") tinfoMap

/-- `T2StageAggregator` (`lib/parseData.go` lines 1683-1690). -/
def T2StageAggregator (tinfoMap : List (String × List TumorInfo)) : PatientFilter :=
  cancerStageAggregator
    (fun t => t.TStage == "T2" || t.TStage == "T2a" || t.TStage == "T2b" || t.TStage == "T2c")
    tinfoMap

/-- `T3StageAggregator` (`lib/parseData.go` lines 1693-1700). -/
def T3StageAggregator (tinfoMap : List (String × List TumorInfo)) : PatientFilter :=
  cancerStageAggregator
    (fun t => t.TStage == "T3" || t.TStage == "T3a" || t.TStage == "T3b") tinfoMap

/-- `T4StageAggregator` (`lib/parseData.go` lines 1703-1710). -/
def T4StageAggregator (tinfoMap : List (String × List TumorInfo)) : PatientFilter :=
  cancerStageAggregator
    (fun t => t.TStage == "T4" || t.TStage == "T4a" || t.TStage == "T4b") tinfoMap

/-- `N0StageAggregator` (`lib/parseData.go` lines 1713-1720). -/
def N0StageAggregator (tinfoMap : List (String × List TumorInfo)) : PatientFilter :=
  cancerStageAggregator (fun t => t.NStage == "N0") tinfoMap

/-- `N1StageAggregator` (`lib/parseData.go` lines 1723-1730). -/
def N1StageAggregator (tinfoMap : List (String × List TumorInfo)) : PatientFilter :=
  cancerStageAggregator (fun t => t.NStage == "N1") tinfoMap

/-- `N2StageAggregator` (`lib/parseData.go` lines 1733-1740). -/
def N2StageAggregator (tinfoMap : List (String × List TumorInfo)) : PatientFilter :=
  cancerStageAggregator (fun t => t.NStage == "N2") tinfoMap

/-- `N3StageAggregator` (`lib/parseData.go` lines 1743-1750). -/
def N3StageAggregator (tinfoMap : List (String × List TumorInfo)) : PatientFilter :=
  cancerStageAggregator (fun t => t.NStage == "N3") tinfoMap

/-- `M0StageAggregator` (`lib/parseData.go` lines 1753-1760). -/
def M0StageAggregator (tinfoMap : List (String × List TumorInfo)) : PatientFilter :=
  cancerStageAggregator (fun t => t.MStage == "M0") tinfoMap

/-- `M1StageAggregator` (`lib/parseData.go` lines 1763-1770). -/
def M1StageAggregator (tinfoMap : List (String × List TumorInfo)) : PatientFilter :=
  cancerStageAggregator
    (fun t => t.MStage == "M1" || t.MStage == "M1a" || t.MStage == "M1b") tinfoMap

/-- `EOIFilter` (`lib/parseData.go` lines 1884-1902): patients without an
EOI date are rejected; otherwise the diagnosis list is replaced by its
prefix before the first diagnosis whose date satisfies `test` against the
EOI date. The Go `newD == nil` check always fails (`[]*Diagnosis{}` is a
non-nil empty slice), so the filter then returns true even with an empty
list. -/
def EOIFilter (test : DiagnosisDate → DiagnosisDate → Bool) : PatientFilter :=
  fun p =>
    match p.EOIDate with
    | none => (p, false)
    | some eoi =>
      ({ p with Diagnoses := p.Diagnoses.takeWhile (fun d => !(test d.Date eoi)) }, true)

/-- `EOIBeforeFilter` (`lib/parseData.go` lines 1905-1907). -/
def EOIBeforeFilter : PatientFilter :=
  EOIFilter (fun d1 d2 => DiagnosisDateSmallerThan d1 d2)

/-- `EOIAfterFilter` (`lib/parseData.go` lines 1910-1912). -/
def EOIAfterFilter : PatientFilter :=
  EOIFilter (fun d1 d2 => DiagnosisDateSmallerThan d2 d1)

/-- `ageLessAggregator` (`lib/parseData.go` lines 1915-1932): keep the
prefix of diagnoses up to year `YOB + age - 1`, reject the patient if
nothing remains. -/
def ageLessAggregator (age : Nat) : PatientFilter :=
  fun p =>
    (p.setDiagnoses (p.Diagnoses.takeWhile
        (fun d => decide (d.Date.Year ≤ p.YOB + age - 1))),
     !(p.Diagnoses.takeWhile (fun d => decide (d.Date.Year ≤ p.YOB + age - 1))).isEmpty)

/-- `ageAboveAggregator` (`lib/parseData.go` lines 1935-1952): drop all
diagnoses up to year `YOB + age`, reject the patient if nothing remains. -/
def ageAboveAggregator (age : Nat) : PatientFilter :=
  fun p =>
    (p.setDiagnoses (p.Diagnoses.filter
        (fun d => decide (d.Date.Year > p.YOB + age))),
     !(p.Diagnoses.filter (fun d => decide (d.Date.Year > p.YOB + age))).isEmpty)

/-- `SexFilter` (`lib/parseData.go` lines 1867-1871): keeps patients whose
sex differs from the argument; never mutates. -/
def SexFilter (sex : Nat) : PatientFilter :=
  fun p => (p, decide (p.Sex ≠ sex))

/-- `MaleFilter` (`lib/parseData.go` lines 1874-1876). -/
def MaleFilter : PatientFilter := SexFilter Male

/-- `FemaleFilter` (`lib/parseData.go` lines 1879-1881). -/
def FemaleFilter : PatientFilter := SexFilter Female

/-- `LessThanSeventyAggregator` (`lib/parseData.go` lines 1955-1957). -/
def LessThanSeventyAggregator : PatientFilter := ageLessAggregator 70

/-- `AboveSeventyAggregator` (`lib/parseData.go` lines 1960-1962). -/
def AboveSeventyAggregator : PatientFilter := ageAboveAggregator 70

/-- `GetPatientFilter` (filters file, lines 1497-1547): the Go `switch` on
the tag string, written as the equivalent chain of equality tests; any
unrecognized tag falls through to the identity filter (as does `"id"`).
Note the source wires `"male"` to `FemaleFilter` (which removes females)
and `"female"` to `MaleFilter`. -/
def GetPatientFilter (s : String) (tinfo : List (String × List TumorInfo)) :
    PatientFilter :=
  if s = "id" then idPatientFilter
  else if s = "age70+" then AboveSeventyAggregator
  else if s = "age70-" then LessThanSeventyAggregator
  else if s = "male" then FemaleFilter
  else if s = "female" then MaleFilter
  else if s = "Ta" then TaStageAggregator tinfo
  else if s = "T1" then T1StageAggregator tinfo
  else if s = "Tis" then TisStageAggregator tinfo
  else if s = "T2" then T2StageAggregator tinfo
  else if s = "T3" then T3StageAggregator tinfo
  else if s = "T4" then T4StageAggregator tinfo
  else if s = "N0" then N0StageAggregator tinfo
  else if s = "N1" then N1StageAggregator tinfo
  else if s = "N2" then N2StageAggregator tinfo
  else if s = "N3" then N3StageAggregator tinfo
  else if s = "M0" then M0StageAggregator tinfo
  else if s = "M1" then M1StageAggregator tinfo
  else if s = "EOI-" then EOIAfterFilter
  else if s = "EOI+" then EOIBeforeFilter
  else if s = "MIBC" then MIBCAggregator tinfo
  else if s = "NMIBC" then NMIBCAggregator tinfo
  else if s = "mUC" then MUCAggregator tinfo
  else idPatientFilter

/-- Whether a medical name contains the word "neoplasm"/"Neoplasm"
(the word scan of `CancerTrajectoryFilter`). -/
def cancerRelatedName (name : String) : Bool :=
  (name.splitOn " ").any (fun w => w == "neoplasm" || w == "Neoplasm")

/-- `CancerTrajectoryFilter` (filters file, lines 1774-1796): a trajectory
passes iff some of its DIDs has a cancer-related name; the Go code
precomputes `CancerRelatedMap` over `exp.Icd10Map` and reads it with the
zero value `false` for missing DIDs, which equals this direct lookup. -/
def CancerTrajectoryFilter (exp : Experiment) : TrajectoryFilter :=
  fun t => t.Diagnoses.any (fun did =>
    ((lookupA exp.Icd10Map did).map (fun e => cancerRelatedName e.Name)).getD false)

/-- The bladder-cancer code prefixes of `BladderCancerTrajectoryFilter`. -/
def bladderCancerCodes : List String :=
  ["C67", "C77", "C78", "C79", "C98", "C99", "C100"]

/-- `BladderCancerTrajectoryFilter` (filters file, lines 1802-1825): a DID
is related iff its original ICD-10 code (from `exp.IdMap`) has length at
least 3 and its 3-character prefix is in the code list, or the code starts
with `C100`; DIDs with shorter codes or missing from `IdMap` read the Go
zero value `false`. -/
def BladderCancerTrajectoryFilter (exp : Experiment) : TrajectoryFilter :=
  fun t => t.Diagnoses.any (fun did =>
    match lookupA exp.IdMap did with
    | some icdCode =>
      if 3 ≤ icdCode.data.length then
        bladderCancerCodes.contains (strTake icdCode 3) ||
          (decide (4 ≤ icdCode.data.length) && (strTake icdCode 4 == "C100"))
      else false
    | none => false)

/-- `GetTrajectoryFilter` (filters file, lines 1567-1577): `"neoplasm"`
and `"bc"` select the two filters; anything else is the identity. -/
def GetTrajectoryFilter (filter : String) (exp : Experiment) : TrajectoryFilter :=
  if filter = "neoplasm" then CancerTrajectoryFilter exp
  else if filter = "bc" then BladderCancerTrajectoryFilter exp
  else fun _ => true

/-- `takeWhile` yields a sublist. -/
theorem takeWhile_sublist_self {α : Type} (q : α → Bool) (l : List α) :
    List.Sublist (l.takeWhile q) l := by
  induction l with
  | nil => exact List.Sublist.refl _
  | cons hd tl ih =>
    rw [List.takeWhile_cons]
    split
    · exact List.Sublist.cons₂ hd ih
    · exact List.nil_sublist _

/-- The patient `q` agrees with `p` on every field except that its
diagnosis list may be a sublist of `p`'s. -/
def patientFrameRespected (p q : Patient) : Prop :=
  q.PID = p.PID ∧ q.PIDString = p.PIDString ∧ q.YOB = p.YOB ∧
  q.CohortAge = p.CohortAge ∧ q.Sex = p.Sex ∧ q.DeathDate = p.DeathDate ∧
  q.EOIDate = p.EOIDate ∧ q.Region = p.Region ∧
  List.Sublist q.Diagnoses p.Diagnoses

theorem patientFrameRespected_refl (p : Patient) : patientFrameRespected p p :=
  ⟨rfl, rfl, rfl, rfl, rfl, rfl, rfl, rfl, List.Sublist.refl _⟩

theorem patientFrameRespected_set (p : Patient) (l : List Diagnosis)
    (h : List.Sublist l p.Diagnoses) :
    patientFrameRespected p (p.setDiagnoses l) :=
  ⟨rfl, rfl, rfl, rfl, rfl, rfl, rfl, rfl, h⟩

theorem cancerStageAggregator_frame (pred : TumorInfo → Bool)
    (tinfoMap : List (String × List TumorInfo)) (p : Patient) :
    patientFrameRespected p ((cancerStageAggregator pred tinfoMap p).1) := by
  unfold cancerStageAggregator
  split
  · exact patientFrameRespected_refl p
  · split
    · exact patientFrameRespected_refl p
    · split
      · exact patientFrameRespected_set p _ (List.filter_sublist _)
      · exact patientFrameRespected_refl p

theorem EOIFilter_frame (test : DiagnosisDate → DiagnosisDate → Bool) (p : Patient) :
    patientFrameRespected p ((EOIFilter test p).1) := by
  unfold EOIFilter
  split
  · exact patientFrameRespected_refl p
  · exact ⟨rfl, rfl, rfl, rfl, rfl, rfl, rfl, rfl, takeWhile_sublist_self _ _⟩

theorem ageLessAggregator_frame (age : Nat) (p : Patient) :
    patientFrameRespected p ((ageLessAggregator age p).1) :=
  patientFrameRespected_set p _ (takeWhile_sublist_self _ _)

theorem ageAboveAggregator_frame (age : Nat) (p : Patient) :
    patientFrameRespected p ((ageAboveAggregator age p).1) :=
  patientFrameRespected_set p _ (List.filter_sublist _)

/-- A patient with an EOI date and one diagnosis dated before it. -/
def eoiDemoPatient : Patient :=
  { PID := 2, PIDString := "p2", YOB := 1950, CohortAge := 0, Sex := Male,
    Diagnoses := [{ PID := 2, DID := 0, Date := { Year := 2019, Month := 1, Day := 1 } }],
    DeathDate := none, EOIDate := some { Year := 2020, Month := 1, Day := 1 },
    Region := 0 }

/-- C5 counterexample.  The filter `GetPatientFilter "EOI+" []`
(= `EOIBeforeFilter`) applied to a concrete patient empties the patient's
diagnosis list: patient filters are not pure predicates. -/
theorem patient_filter_mutates_counterexample :
    ((GetPatientFilter "EOI+" []) eoiDemoPatient).1.Diagnoses = [] ∧
    eoiDemoPatient.Diagnoses ≠ [] := by
  decide

/-- C5 amended theorem.  Every filter produced by `GetPatientFilter`
returns a boolean and leaves every patient field unchanged except the
diagnosis list, which it may replace by a sublist of itself (the stage
aggregators, EOI filters and age filters trim it; the id and sex filters
leave it intact). -/
theorem GetPatientFilter_frame (s : String)
    (tinfo : List (String × List TumorInfo)) (p : Patient) :
    patientFrameRespected p (((GetPatientFilter s tinfo) p).1) := by
  unfold GetPatientFilter
  by_cases h1 : s = "id"
  · rw [if_pos h1]
    exact patientFrameRespected_refl p
  rw [if_neg h1]
  by_cases h2 : s = "age70+"
  · rw [if_pos h2]
    exact ageAboveAggregator_frame 70 p
  rw [if_neg h2]
  by_cases h3 : s = "age70-"
  · rw [if_pos h3]
    exact ageLessAggregator_frame 70 p
  rw [if_neg h3]
  by_cases h4 : s = "male"
  · rw [if_pos h4]
    exact patientFrameRespected_refl p
  rw [if_neg h4]
  by_cases h5 : s = "female"
  · rw [if_pos h5]
    exact patientFrameRespected_refl p
  rw [if_neg h5]
  by_cases h6 : s = "Ta"
  · rw [if_pos h6]
    exact cancerStageAggregator_frame _ tinfo p
  rw [if_neg h6]
  by_cases h7 : s = "T1"
  · rw [if_pos h7]
    exact cancerStageAggregator_frame _ tinfo p
  rw [if_neg h7]
  by_cases h8 : s = "Tis"
  · rw [if_pos h8]
    exact cancerStageAggregator_frame _ tinfo p
  rw [if_neg h8]
  by_cases h9 : s = "T2"
  · rw [if_pos h9]
    exact cancerStageAggregator_frame _ tinfo p
  rw [if_neg h9]
  by_cases h10 : s = "T3"
  · rw [if_pos h10]
    exact cancerStageAggregator_frame _ tinfo p
  rw [if_neg h10]
  by_cases h11 : s = "T4"
  · rw [if_pos h11]
    exact cancerStageAggregator_frame _ tinfo p
  rw [if_neg h11]
  by_cases h12 : s = "N0"
  · rw [if_pos h12]
    exact cancerStageAggregator_frame _ tinfo p
  rw [if_neg h12]
  by_cases h13 : s = "N1"
  · rw [if_pos h13]
    exact cancerStageAggregator_frame _ tinfo p
  rw [if_neg h13]
  by_cases h14 : s = "N2"
  · rw [if_pos h14]
    exact cancerStageAggregator_frame _ tinfo p
  rw [if_neg h14]
  by_cases h15 : s = "N3"
  · rw [if_pos h15]
    exact cancerStageAggregator_frame _ tinfo p
  rw [if_neg h15]
  by_cases h16 : s = "M0"
  · rw [if_pos h16]
    exact cancerStageAggregator_frame _ tinfo p
  rw [if_neg h16]
  by_cases h17 : s = "M1"
  · rw [if_pos h17]
    exact cancerStageAggregator_frame _ tinfo p
  rw [if_neg h17]
  by_cases h18 : s = "EOI-"
  · rw [if_pos h18]
    exact EOIFilter_frame _ p
  rw [if_neg h18]
  by_cases h19 : s = "EOI+"
  · rw [if_pos h19]
    exact EOIFilter_frame _ p
  rw [if_neg h19]
  by_cases h20 : s = "MIBC"
  · rw [if_pos h20]
    exact cancerStageAggregator_frame _ tinfo p
  rw [if_neg h20]
  by_cases h21 : s = "NMIBC"
  · rw [if_pos h21]
    exact cancerStageAggregator_frame _ tinfo p
  rw [if_neg h21]
  by_cases h22 : s = "mUC"
  · rw [if_pos h22]
    exact cancerStageAggregator_frame _ tinfo p
  rw [if_neg h22]
  exact patientFrameRespected_refl p

/-- The documented patient-filter tags (`GetPatientFilter` switch cases). -/
def knownPatientFilterTags : List String :=
  ["id", "age70+", "age70-", "male", "female", "Ta", "T1", "Tis", "T2", "T3",
   "T4", "N0", "N1", "N2", "N3", "M0", "M1", "EOI-", "EOI+", "MIBC", "NMIBC", "mUC"]

/-- The documented trajectory-filter tags. -/
def knownTrajectoryFilterTags : List String := ["neoplasm", "bc"]

/-- C10 theorem.  Any tag outside the documented set maps to the identity
filter: `GetPatientFilter` returns the filter accepting every patient
unchanged, and `GetTrajectoryFilter` the filter accepting every
trajectory — an unrecognized tag silently disables filtering. -/
theorem unknown_filter_tags_identity (s tg : String)
    (tinfo : List (String × List TumorInfo)) (exp : Experiment)
    (hs : s ∉ knownPatientFilterTags) (ht : tg ∉ knownTrajectoryFilterTags) :
    (∀ p, GetPatientFilter s tinfo p = (p, true)) ∧
    (∀ t, GetTrajectoryFilter tg exp t = true) := by
  have hni : ∀ x ∈ knownPatientFilterTags, s ≠ x := by
    intro x hx he
    exact hs (he ▸ hx)
  have htni : ∀ x ∈ knownTrajectoryFilterTags, tg ≠ x := by
    intro x hx he
    exact ht (he ▸ hx)
  constructor
  · intro p
    unfold GetPatientFilter
    rw [if_neg (hni "id" (by decide)), if_neg (hni "age70+" (by decide)),
      if_neg (hni "age70-" (by decide)), if_neg (hni "male" (by decide)),
      if_neg (hni "female" (by decide)), if_neg (hni "Ta" (by decide)),
      if_neg (hni "T1" (by decide)), if_neg (hni "Tis" (by decide)),
      if_neg (hni "T2" (by decide)), if_neg (hni "T3" (by decide)),
      if_neg (hni "T4" (by decide)), if_neg (hni "N0" (by decide)),
      if_neg (hni "N1" (by decide)), if_neg (hni "N2" (by decide)),
      if_neg (hni "N3" (by decide)), if_neg (hni "M0" (by decide)),
      if_neg (hni "M1" (by decide)), if_neg (hni "EOI-" (by decide)),
      if_neg (hni "EOI+" (by decide)), if_neg (hni "MIBC" (by decide)),
      if_neg (hni "NMIBC" (by decide)), if_neg (hni "mUC" (by decide))]
    rfl
  · intro t
    unfold GetTrajectoryFilter
    rw [if_neg (htni "neoplasm" (by decide)), if_neg (htni "bc" (by decide))]

/-- A concrete trajectory. -/
def demoTrajectory : Trajectory :=
  { ID := 0, Diagnoses := [0, 1], PatientNumbers := [5], Cluster := 0 }

/-- C10 witness: the misspelled tags `ages70` and `neo` accept a concrete
patient and a concrete trajectory without change. -/
theorem unknown_filter_tags_identity_witness :
    GetPatientFilter "ages70" [] demoPatient = (demoPatient, true) ∧
    GetTrajectoryFilter "neo" {} demoTrajectory = true :=
  ⟨(unknown_filter_tags_identity "ages70" "neo" [] {} (by decide) (by decide)).1 demoPatient,
   (unknown_filter_tags_identity "ages70" "neo" [] {} (by decide) (by decide)).2 demoTrajectory⟩

/-! ## The diagnosis-CSV parse loop (`parseTrinetXPatientDiagnoses`) -/

/-- `TriNetXEventOfInterest` (`lib/parseData.go` lines 757-765): the code
`Z85.1` or any code whose first three characters are `C67`. -/
def TriNetXEventOfInterest (icd10ID : String) : Bool :=
  icd10ID == "Z85.1" ||
    (decide (3 ≤ icd10ID.data.length) && (strTake icd10ID 3 == "C67"))

/-- The fields of one diagnosis-CSV record used by the loop
(`lib/parseData.go` lines 842-856): `pid = record[0]`,
`codeSystem = record[2]`, `code = record[3]`, `date = record[7]`. -/
structure DiagnosisRecord where
  pid : String
  codeSystem : String
  code : String
  date : String
deriving DecidableEq, Repr

/-- Updating the patient bound to `s` (the Go code mutates the `*Patient`
held by the `PIDMap`, so the binding itself is replaced here). -/
def setPatientA (pats : List (String × Patient)) (s : String) (q : Patient) :
    List (String × Patient) :=
  pats.map (fun kv => if kv.1 = s then (kv.1, q) else kv)

theorem lookupA_setPatientA_self (pats : List (String × Patient)) (s : String)
    (q : Patient) {p : Patient} (hp : lookupA pats s = some p) :
    lookupA (setPatientA pats s q) s = some q := by
  induction pats with
  | nil => cases hp
  | cons kv tl ih =>
    obtain ⟨k, v⟩ := kv
    unfold setPatientA at ih ⊢
    rw [List.map_cons]
    by_cases hk : (k, v).1 = s
    · rw [if_pos hk]
      simp only at hk
      rw [hk]
      exact lookupA_cons_self _ _ _
    · rw [if_neg hk]
      simp only at hk
      rw [lookupA_cons_ne _ _ hk]
      rw [lookupA] at hp
      rw [if_neg hk] at hp
      exact ih hp

theorem lookupA_setPatientA_ne (pats : List (String × Patient)) (s t : String)
    (q : Patient) (hne : t ≠ s) :
    lookupA (setPatientA pats s q) t = lookupA pats t := by
  induction pats with
  | nil => rfl
  | cons kv tl ih =>
    obtain ⟨k, v⟩ := kv
    unfold setPatientA at ih ⊢
    rw [List.map_cons]
    by_cases hk : (k, v).1 = s
    · rw [if_pos hk]
      simp only at hk
      have hkt : k ≠ t := by
        rw [hk]
        exact fun h => hne h.symm
      rw [lookupA_cons_ne _ _ hkt, lookupA_cons_ne _ _ hkt]
      exact ih
    · rw [if_neg hk]
      by_cases hkt : k = t
      · rw [hkt, lookupA_cons_self, lookupA_cons_self]
      · rw [lookupA_cons_ne _ _ hkt, lookupA_cons_ne _ _ hkt]
        exact ih

/-- The code a record resolves to (`lib/parseData.go` lines 847-855):
`ICD-10-CM` codes pass through, anything else is remapped via the
ICD-9 -> ICD-10 table or the record is skipped. -/
def resolvedCode (icd9ToIcd10Map : List (String × String))
    (r : DiagnosisRecord) : Option String :=
  if r.codeSystem = "ICD-10-CM" then some r.code
  else lookupA icd9ToIcd10Map r.code

/-- One iteration of the record loop of `parseTrinetXPatientDiagnoses`
(`lib/parseData.go` lines 833-868), generic in the `AnalysisMaps` fill-in
method: skip unknown patients and unmappable codes; parse the date (a
parse failure panics the whole loop: outer `none`); fill in the diagnosis;
when the code was not excluded and the patient has no EOI date yet, a
record passing `TriNetXEventOfInterest` sets `EOIDate` — the first such
record in file order wins, whatever its date. -/
def parseDiagnosesStep (fill : Patient → String → DiagnosisDate → Patient × Nat)
    (icd9ToIcd10Map : List (String × String))
    (pats : List (String × Patient)) (r : DiagnosisRecord) :
    Option (List (String × Patient)) :=
  match lookupA pats r.pid with
  | none => some pats
  | some patient =>
    match resolvedCode icd9ToIcd10Map r with
    | none => some pats
    | some DIDString =>
      match parseTriNetXDiagnosisDate r.date with
      | none => none
      | some date =>
        let res := fill patient DIDString date
        if 0 < res.2 then some (setPatientA pats r.pid res.1)
        else
          if res.1.EOIDate = none ∧ TriNetXEventOfInterest DIDString = true then
            some (setPatientA pats r.pid { res.1 with EOIDate := some date })
          else
            some (setPatientA pats r.pid res.1)

/-- The record loop of `parseTrinetXPatientDiagnoses` over the whole
diagnosis CSV; `none` is a date-parse panic. -/
def parseDiagnosesLoop (fill : Patient → String → DiagnosisDate → Patient × Nat)
    (icd9ToIcd10Map : List (String × String)) :
    List (String × Patient) → List DiagnosisRecord →
    Option (List (String × Patient))
  | pats, [] => some pats
  | pats, r :: rest =>
    match parseDiagnosesStep fill icd9ToIcd10Map pats r with
    | none => none
    | some pats1 => parseDiagnosesLoop fill icd9ToIcd10Map pats1 rest

/-- The date the claim's loop would record for patient `s` from record
`r` when `r` is the first eligible record: `r` must belong to `s`,
resolve to a code present in the XML analysis map (not excluded), and
pass `TriNetXEventOfInterest`; the recorded date is the record's parsed
date (its position in the file, not its value, decides). -/
def xmlRecordEOIDate (st : XmlMapsState) (icd9ToIcd10Map : List (String × String))
    (s : String) (r : DiagnosisRecord) : Option DiagnosisDate :=
  match resolvedCode icd9ToIcd10Map r with
  | none => none
  | some code =>
    if r.pid = s ∧ (xmlGetDID st code).isSome = true ∧
        TriNetXEventOfInterest code = true then
      parseTriNetXDiagnosisDate r.date
    else none

/-- The EOI date the loop assigns to patient `s`: the parsed date of the
first eligible record in file order. -/
def firstEOIDateSpec (st : XmlMapsState) (icd9ToIcd10Map : List (String × String))
    (s : String) : List DiagnosisRecord → Option DiagnosisDate
  | [] => none
  | r :: rest =>
    match xmlRecordEOIDate st icd9ToIcd10Map s r with
    | some d => some d
    | none => firstEOIDateSpec st icd9ToIcd10Map s rest

/-- `fillInPatientDiagnoses` on the XML map never touches `EOIDate`. -/
theorem xmlFill_EOIDate (st : XmlMapsState) (p : Patient) (c : String)
    (date : DiagnosisDate) :
    (xmlFillInPatientDiagnoses st p c date).1.EOIDate = p.EOIDate := by
  unfold xmlFillInPatientDiagnoses
  cases xmlGetDID st c with
  | none => rfl
  | some i => rfl

/-- `fillInPatientDiagnoses` on the XML map returns the excluded flag 1
exactly when the code has no DID. -/
theorem xmlFill_flag (st : XmlMapsState) (p : Patient) (c : String)
    (date : DiagnosisDate) :
    (xmlFillInPatientDiagnoses st p c date).2 =
      if (xmlGetDID st c).isSome = true then 0 else 1 := by
  unfold xmlFillInPatientDiagnoses
  cases xmlGetDID st c with
  | none => rfl
  | some i => rfl

/-- Go `nil`-coalescing on optional values: keep the first if present. -/
def optionOrElse {α : Type} (a b : Option α) : Option α :=
  match a with
  | some x => some x
  | none => b

theorem optionOrElse_none_right {α : Type} (a : Option α) :
    optionOrElse a none = a := by
  cases a <;> rfl

theorem firstEOIDateSpec_cons (st : XmlMapsState)
    (icd9 : List (String × String)) (s : String) (r : DiagnosisRecord)
    (rest : List DiagnosisRecord) :
    firstEOIDateSpec st icd9 s (r :: rest) =
      match xmlRecordEOIDate st icd9 s r with
      | some d => some d
      | none => firstEOIDateSpec st icd9 s rest := rfl


theorem xmlRecordEOIDate_eligible (st : XmlMapsState)
    (icd9 : List (String × String)) (s : String) (r : DiagnosisRecord)
    (code : String) (hrc : resolvedCode icd9 r = some code)
    (hpid : r.pid = s) (hsome : (xmlGetDID st code).isSome = true)
    (heoi : TriNetXEventOfInterest code = true) :
    xmlRecordEOIDate st icd9 s r = parseTriNetXDiagnosisDate r.date := by
  simp only [xmlRecordEOIDate, hrc]
  rw [if_pos ⟨hpid, hsome, heoi⟩]

/-- C6 amended theorem.  After the diagnosis-CSV loop over an XML-based
analysis map, a patient's `EOIDate` is their previous `EOIDate` if any,
else the parsed date of the FIRST record in file order that belongs to
the patient, resolves to a non-excluded code of the map and passes
`TriNetXEventOfInterest` — the file position, not the date value,
decides, and the date stays `nil` when no such record exists. -/
theorem xml_EOIDate_first_in_file_order (st : XmlMapsState)
    (icd9 : List (String × String)) (records : List DiagnosisRecord)
    (pats pats2 : List (String × Patient)) (s : String) (p : Patient)
    (hrun : parseDiagnosesLoop (xmlFillInPatientDiagnoses st) icd9 pats records = some pats2)
    (hp : lookupA pats s = some p) :
    ∃ q, lookupA pats2 s = some q ∧
      q.EOIDate = optionOrElse p.EOIDate (firstEOIDateSpec st icd9 s records) := by
  induction records generalizing pats p with
  | nil =>
    rw [show parseDiagnosesLoop (xmlFillInPatientDiagnoses st) icd9 pats [] = some pats from rfl] at hrun
    cases hrun
    refine ⟨p, hp, ?_⟩
    rw [show firstEOIDateSpec st icd9 s [] = none from rfl, optionOrElse_none_right]
  | cons r rest ih =>
    rw [show parseDiagnosesLoop (xmlFillInPatientDiagnoses st) icd9 pats (r :: rest) =
        (match parseDiagnosesStep (xmlFillInPatientDiagnoses st) icd9 pats r with
          | none => none
          | some pats1 => parseDiagnosesLoop (xmlFillInPatientDiagnoses st) icd9 pats1 rest) from rfl] at hrun
    cases hstep : parseDiagnosesStep (xmlFillInPatientDiagnoses st) icd9 pats r with
    | none =>
      rw [hstep] at hrun
      cases hrun
    | some pats1 =>
      rw [hstep] at hrun
      simp only at hrun
      unfold parseDiagnosesStep at hstep
      cases hlp : lookupA pats r.pid with
      | none =>
        simp only [hlp] at hstep
        cases hstep
        have hne : r.pid ≠ s := by
          intro h
          rw [h, hp] at hlp
          cases hlp
        have hrec : xmlRecordEOIDate st icd9 s r = none := by
          cases hrc : resolvedCode icd9 r with
          | none => simp only [xmlRecordEOIDate, hrc]
          | some code =>
            simp only [xmlRecordEOIDate, hrc]
            rw [if_neg (fun hc => hne hc.1)]
        obtain ⟨q, hq1, hq2⟩ := ih pats p hrun hp
        refine ⟨q, hq1, ?_⟩
        rw [hq2, firstEOIDateSpec_cons, hrec]
      | some patient =>
        simp only [hlp] at hstep
        cases hrc : resolvedCode icd9 r with
        | none =>
          simp only [hrc] at hstep
          cases hstep
          have hrec : xmlRecordEOIDate st icd9 s r = none := by
            simp only [xmlRecordEOIDate, hrc]
          obtain ⟨q, hq1, hq2⟩ := ih pats p hrun hp
          refine ⟨q, hq1, ?_⟩
          rw [hq2, firstEOIDateSpec_cons, hrec]
        | some code =>
          simp only [hrc] at hstep
          cases hdate : parseTriNetXDiagnosisDate r.date with
          | none =>
            simp only [hdate] at hstep
            cases hstep
          | some date =>
            simp only [hdate] at hstep
            cases hdid : xmlGetDID st code with
            | none =>
              have hfill : xmlFillInPatientDiagnoses st patient code date = (patient, 1) := by
                unfold xmlFillInPatientDiagnoses
                rw [hdid]
              simp only [hfill, Nat.zero_lt_one, ite_true] at hstep
              cases hstep
              have hrec : xmlRecordEOIDate st icd9 s r = none := by
                simp only [xmlRecordEOIDate, hrc]
                rw [if_neg]
                intro hc
                rw [hdid] at hc
                exact absurd hc.2.1 (by decide)
              by_cases hps : r.pid = s
              · subst hps
                have hpp : patient = p := by
                  rw [hlp] at hp
                  cases hp
                  rfl
                subst hpp
                have hp1 : lookupA (setPatientA pats r.pid patient) r.pid = some patient :=
                  lookupA_setPatientA_self _ _ _ hlp
                obtain ⟨q, hq1, hq2⟩ := ih _ _ hrun hp1
                refine ⟨q, hq1, ?_⟩
                rw [hq2, firstEOIDateSpec_cons, hrec]
              · have hp1 : lookupA (setPatientA pats r.pid patient) s = some p := by
                  rw [lookupA_setPatientA_ne _ _ _ _ (fun h => hps h.symm)]
                  exact hp
                obtain ⟨q, hq1, hq2⟩ := ih _ _ hrun hp1
                refine ⟨q, hq1, ?_⟩
                rw [hq2, firstEOIDateSpec_cons, hrec]
            | some did =>
              have hfill : xmlFillInPatientDiagnoses st patient code date =
                  (patient.AddDiagnosis { PID := patient.PID, DID := did, Date := date }, 0) := by
                unfold xmlFillInPatientDiagnoses
                rw [hdid]
              simp only [hfill, Nat.lt_irrefl, ite_false] at hstep
              have hAdd : (patient.AddDiagnosis
                  { PID := patient.PID, DID := did, Date := date }).EOIDate = patient.EOIDate := rfl
              rw [hAdd] at hstep
              by_cases hps : r.pid = s
              · subst hps
                have hpp : patient = p := by
                  rw [hlp] at hp
                  cases hp
                  rfl
                subst hpp
                by_cases hcond : patient.EOIDate = none ∧ TriNetXEventOfInterest code = true
                · rw [if_pos hcond] at hstep
                  cases hstep
                  have hrec : xmlRecordEOIDate st icd9 r.pid r = some date :=
                    (xmlRecordEOIDate_eligible st icd9 r.pid r code hrc rfl
                      (by simp [hdid]) hcond.2).trans hdate
                  obtain ⟨q, hq1, hq2⟩ := ih _ _ hrun (lookupA_setPatientA_self _ _ _ hlp)
                  refine ⟨q, hq1, ?_⟩
                  rw [hq2, firstEOIDateSpec_cons, hrec, hcond.1]
                  rfl
                · rw [if_neg hcond] at hstep
                  cases hstep
                  obtain ⟨q, hq1, hq2⟩ := ih _ _ hrun (lookupA_setPatientA_self _ _ _ hlp)
                  refine ⟨q, hq1, ?_⟩
                  cases hE : patient.EOIDate with
                  | some e =>
                    rw [hq2]
                    have hAdd2 : (patient.AddDiagnosis
                        { PID := patient.PID, DID := did, Date := date }).EOIDate = patient.EOIDate := rfl
                    rw [hAdd2, hE]
                    rfl
                  | none =>
                    have hEOIc : ¬ TriNetXEventOfInterest code = true :=
                      fun h => hcond ⟨hE, h⟩
                    have hrec : xmlRecordEOIDate st icd9 r.pid r = none := by
                      simp only [xmlRecordEOIDate, hrc]
                      rw [if_neg (fun hc => hEOIc hc.2.2)]
                    have hAdd2 : (patient.AddDiagnosis
                        { PID := patient.PID, DID := did, Date := date }).EOIDate = patient.EOIDate := rfl
                    rw [hq2, firstEOIDateSpec_cons, hrec, hAdd2, hE]
              · have hrec : xmlRecordEOIDate st icd9 s r = none := by
                  simp only [xmlRecordEOIDate, hrc]
                  rw [if_neg (fun hc => hps hc.1)]
                by_cases hcond : patient.EOIDate = none ∧ TriNetXEventOfInterest code = true
                · rw [if_pos hcond] at hstep
                  cases hstep
                  obtain ⟨q, hq1, hq2⟩ := ih _ _ hrun
                    (by rw [lookupA_setPatientA_ne _ _ _ _ (fun h => hps h.symm)]; exact hp)
                  refine ⟨q, hq1, ?_⟩
                  rw [hq2, firstEOIDateSpec_cons, hrec]
                · rw [if_neg hcond] at hstep
                  cases hstep
                  obtain ⟨q, hq1, hq2⟩ := ih _ _ hrun
                    (by rw [lookupA_setPatientA_ne _ _ _ _ (fun h => hps h.symm)]; exact hp)
                  refine ⟨q, hq1, ?_⟩
                  rw [hq2, firstEOIDateSpec_cons, hrec]

/-- A one-code XML analysis state mapping the bladder-cancer code
`C67.0` to DID 0. -/
def demoBladderState : XmlMapsState :=
  { analysisIdMap := [("C67.0", 0)],
    analysisIcd10Map := [(0, { Name := "Malignant neoplasm of trigone of bladder",
                               Categories := [], Level := 3 })],
    nameToAnalysisIdMap := [("Malignant neoplasm of trigone of bladder", 0)],
    ctr := 1 }

/-- Two diagnosis records of the same patient and EOI code, the LATER
date first in file order. -/
def eoiRecords : List DiagnosisRecord :=
  [{ pid := "p1", codeSystem := "ICD-10-CM", code := "C67.0", date := "2021-05-05" },
   { pid := "p1", codeSystem := "ICD-10-CM", code := "C67.0", date := "2020-01-01" }]

/-- The loop result on `eoiRecords`, restricted to patient `p1`. -/
def eoiLoopResult : Option (Option Patient) :=
  (parseDiagnosesLoop (xmlFillInPatientDiagnoses demoBladderState) []
      [("p1", demoPatient)] eoiRecords).map
    (fun pats => lookupA pats "p1")

/-- C6 counterexample.  With two event-of-interest records in
reverse-chronological file order, the loop records `EOIDate =
2021-05-05` — the first record in file order — although the patient's
event-of-interest diagnoses include the strictly earlier date
2020-01-01, so `EOIDate` is not the earliest EOI diagnosis date. -/
theorem EOIDate_not_earliest_counterexample :
    eoiLoopResult.map (fun q => q.map Patient.EOIDate) =
      some (some (some { Year := 2021, Month := 5, Day := 5 })) ∧
    eoiLoopResult.map (fun q => q.map (fun p => p.Diagnoses.map Diagnosis.Date)) =
      some (some [{ Year := 2021, Month := 5, Day := 5 },
                  { Year := 2020, Month := 1, Day := 1 }]) ∧
    TriNetXEventOfInterest "C67.0" = true ∧
    DiagnosisDateSmallerThan { Year := 2020, Month := 1, Day := 1 }
      { Year := 2021, Month := 5, Day := 5 } = true ∧
    (some { Year := 2021, Month := 5, Day := 5 } : Option DiagnosisDate) ≠
      some { Year := 2020, Month := 1, Day := 1 } := by
  decide

/-- The concrete patient map produced by the loop on `eoiRecords`. -/
def eoiExpectedPats : List (String × Patient) :=
  [("p1",
    { PID := 1, PIDString := "p1", YOB := 1950, CohortAge := 0, Sex := Male,
      Diagnoses :=
        [{ PID := 1, DID := 0, Date := { Year := 2021, Month := 5, Day := 5 } },
         { PID := 1, DID := 0, Date := { Year := 2020, Month := 1, Day := 1 } }],
      DeathDate := none,
      EOIDate := some { Year := 2021, Month := 5, Day := 5 },
      Region := 0 })]

/-- C6 witness at the concrete inputs of the counterexample. -/
theorem xml_EOIDate_first_in_file_order_witness :
    ∃ q, lookupA eoiExpectedPats "p1" = some q ∧
      q.EOIDate = optionOrElse demoPatient.EOIDate
        (firstEOIDateSpec demoBladderState [] "p1" eoiRecords) :=
  xml_EOIDate_first_in_file_order demoBladderState [] eoiRecords
    [("p1", demoPatient)] eoiExpectedPats "p1" demoPatient (by decide) (by decide)
